import Mathlib

/-!
# Bento version service: naming scheme and status update

A shallow embedding of `api-server/services/bento_version.go`.

Go strings are embedded as Lean strings (sequences of characters).  Pointers
that may be nil are `Option`s, a function returning `(T, error)` returns
`Except Error T`, and the calls `Update` makes to its collaborators (the
database session, the association lookups, the cluster API client) are
answered by an explicit environment and recorded in a trace.
-/

namespace Yatai

/-! ## Errors -/

/-- Errors seen by the service.  `errorf` is an error built in this file with
`errors.New` / `errors.Errorf`; `notFound` and `alreadyExists` are the two API
status errors the code or its callers tell apart (`apierrors.IsNotFound`);
`other` is any other failure reported by a collaborator. -/
inductive Error where
  | errorf (msg : String)
  | notFound (msg : String)
  | alreadyExists (msg : String)
  | other (msg : String)
  deriving DecidableEq, Repr

/-- The predicate `apierrors.IsNotFound(err)`, on a possibly nil error. -/
def IsNotFound : Option Error → Bool
  | some (Error.notFound _) => true
  | _ => false

/-! ## Formatting and string helpers -/

/-- Expansion of a format whose only verb is `%s`: every `%s` is replaced by
the next operand, a `%s` without operand prints `%!s(MISSING)`, and every
other character is copied. -/
def sprintfAux : List Char → List String → List Char
  | [], _ => []
  | [c], _ => [c]
  | c :: d :: rest, args =>
    if c = '%' ∧ d = 's' then
      match args with
      | [] => "%!s(MISSING)".data ++ sprintfAux rest []
      | a :: as => a.data ++ sprintfAux rest as
    else c :: sprintfAux (d :: rest) args

/-- The call `fmt.Sprintf(format, args...)` for string operands. -/
def Sprintf (format : String) (args : List String) : String :=
  String.mk (sprintfAux format.data args)

/-- The call `strings.ReplaceAll(s, old, new)` for one-character `old` and
`new`: every occurrence of the character is replaced. -/
def ReplaceAll (s : String) (old new : Char) : String :=
  String.mk (s.data.map fun c => if c = old then new else c)

/-- White space in the sense of `unicode.IsSpace`. -/
def isSpace (c : Char) : Bool :=
  c = '\t' || c = '\n' || c.toNat = 0x0B || c.toNat = 0x0C || c = '\r' || c = ' ' ||
  c.toNat = 0x85 || c.toNat = 0xA0 || c.toNat = 0x1680 ||
  (0x2000 ≤ c.toNat && c.toNat ≤ 0x200A) ||
  c.toNat = 0x2028 || c.toNat = 0x2029 || c.toNat = 0x202F || c.toNat = 0x205F ||
  c.toNat = 0x3000

/-- The call `strings.TrimSpace(s)`, on the characters of `s`. -/
def trimSpace (cs : List Char) : List Char :=
  ((cs.dropWhile isSpace).reverse.dropWhile isSpace).reverse

def isCap (c : Char) : Bool := 'A'.toNat ≤ c.toNat && c.toNat ≤ 'Z'.toNat

def isLow (c : Char) : Bool := 'a'.toNat ≤ c.toNat && c.toNat ≤ 'z'.toNat

def isNum (c : Char) : Bool := '0'.toNat ≤ c.toNat && c.toNat ≤ '9'.toNat

/-- The separators that `ToScreamingDelimited` replaces by the delimiter. -/
def isSeparator (c : Char) : Bool := c = ' ' || c = '_' || c = '-' || c = '.'

/-- The loop of `strcase.ToScreamingDelimited`: `prev` is the character before
`v` in the trimmed input (none at the start), the list is the input from `v`
on. -/
def delimitedLoop (delimiter : Char) (ignore : List Char) (screaming : Bool) :
    Option Char → List Char → List Char
  | _, [] => []
  | prev, v0 :: rest =>
    let vIsCap := isCap v0
    let vIsLow := isLow v0
    let v := if vIsLow && screaming then v0.toUpper
             else if vIsCap && !screaming then v0.toLower else v0
    let plain := if isSeparator v && !(ignore.contains v) then delimiter else v
    let tail := delimitedLoop delimiter ignore screaming (some v0) rest
    match rest with
    | [] => plain :: tail
    | next :: _ =>
      let vIsNum := isNum v
      let nextIsCap := isCap next
      let nextIsLow := isLow next
      let nextIsNum := isNum next
      if (vIsCap && (nextIsLow || nextIsNum)) || (vIsLow && (nextIsCap || nextIsNum)) ||
          (vIsNum && (nextIsCap || nextIsLow)) then
        let prevIgnore := !ignore.isEmpty &&
          (match prev with
           | some p => ignore.contains p
           | none => false)
        if !prevIgnore then
          let pre := if vIsCap && nextIsLow &&
              (match prev with
               | some p => isCap p
               | none => false) then [delimiter] else []
          let post := if vIsLow || vIsNum || nextIsNum then [delimiter] else []
          pre ++ v :: post ++ tail
        else plain :: tail
      else plain :: tail

/-- The library function `strcase.ToScreamingDelimited(s, delimiter, ignore,
screaming)` of `github.com/iancoleman/strcase`, which this repository imports:
the input is trimmed, letters are lower-cased (upper-cased when `screaming`),
a delimiter is inserted where the kind of character changes between letters
of different case and digits, and space, underscore, hyphen and dot become
the delimiter. -/
def ToScreamingDelimited (s : String) (delimiter : Char) (ignore : String)
    (screaming : Bool) : String :=
  String.mk (delimitedLoop delimiter ignore.data screaming none (trimSpace s.data))

/-- The library function `strcase.ToKebab(s)`, which is
`ToDelimited(s, '-')`, that is `ToScreamingDelimited(s, '-', "", false)`. -/
def ToKebab (s : String) : String := ToScreamingDelimited s '-' "" false

/-! ## Data model -/

/-- Modelled from the spec: the type `modelschemas.BentoVersionBuildStatus`,
declared outside the source files; the spec gives
`buildStatus ∈ {pending, building, success, failed}`. -/
inductive BentoVersionBuildStatus where
  | Pending | Building | Success | Failed
  deriving DecidableEq, Repr

/-- Modelled from the spec: the type `modelschemas.BentoVersionUploadStatus`,
declared outside the source files; the spec gives
`uploadStatus ∈ {pending, uploading, success, failed}`. -/
inductive BentoVersionUploadStatus where
  | Pending | Uploading | Success | Failed
  deriving DecidableEq, Repr

/-- A point in time (`time.Time`), as a number. -/
abbrev Time := Nat

/-- The fields of `models.BentoVersion` that the service reads or writes. -/
structure BentoVersion where
  ID : Nat
  CreatorId : Nat
  BentoId : Nat
  Version : String
  Description : String
  BuildStatus : BentoVersionBuildStatus
  UploadStatus : BentoVersionUploadStatus
  UploadStartedAt : Option Time
  UploadFinishedAt : Option Time
  UploadFinishedReason : String
  BuildAt : Time
  deriving DecidableEq, Repr

/-- The fields of `models.Bento` that the service reads. -/
structure Bento where
  ID : Nat
  OrganizationId : Nat
  Name : String
  deriving DecidableEq, Repr

/-- The registry part of the organization configuration,
`org.Config.AWS.ECR`. -/
structure ECRConfig where
  RepositoryURI : String
  deriving DecidableEq, Repr

/-- The object-store part of the organization configuration,
`org.Config.AWS.S3`. -/
structure S3Config where
  BucketName : String
  Region : String
  deriving DecidableEq, Repr

/-- The organization configuration `org.Config.AWS`. -/
structure AWSConfig where
  AccessKeyId : String
  SecretAccessKey : String
  ECR : Option ECRConfig
  S3 : Option S3Config
  deriving DecidableEq, Repr

/-- The organization configuration `org.Config`. -/
structure OrganizationConfig where
  AWS : Option AWSConfig
  deriving DecidableEq, Repr

/-- The fields of `models.Organization` that the service reads. -/
structure Organization where
  ID : Nat
  Name : String
  Config : Option OrganizationConfig
  deriving DecidableEq, Repr

/-- The fields of `models.Cluster` that the service reads. -/
structure Cluster where
  ID : Nat
  KubeConfig : String
  deriving DecidableEq, Repr

/-- The option of `Update`: every field is a pointer, nil when the field is
not to be changed; the two times are pointers to nullable times. -/
structure UpdateBentoVersionOption where
  BuildStatus : Option BentoVersionBuildStatus
  UploadStatus : Option BentoVersionUploadStatus
  UploadStartedAt : Option (Option Time)
  UploadFinishedAt : Option (Option Time)
  UploadFinishedReason : Option String
  deriving DecidableEq, Repr

/-! ## The pod submitted to the cluster -/

inductive RestartPolicy where
  | Always | OnFailure | Never
  deriving DecidableEq, Repr

/-- A volume of a pod, with the config map or the secret it is taken from. -/
structure Volume where
  Name : String
  ConfigMap : Option String
  Secret : Option String
  deriving DecidableEq, Repr

structure VolumeMount where
  Name : String
  MountPath : String
  deriving DecidableEq, Repr

structure EnvVar where
  Name : String
  Value : String
  deriving DecidableEq, Repr

structure Container where
  Name : String
  Image : String
  Args : List String
  VolumeMounts : List VolumeMount
  Env : List EnvVar
  deriving DecidableEq, Repr

structure PodSpec where
  RestartPolicy : RestartPolicy
  Volumes : List Volume
  Containers : List Container
  deriving DecidableEq, Repr

structure Pod where
  Name : String
  Spec : PodSpec
  deriving DecidableEq, Repr

/-! ## The persisted record and the collaborators -/

/-- A value stored in the map `updaters` of `Update`. -/
inductive Value where
  | buildStatus (s : BentoVersionBuildStatus)
  | uploadStatus (s : BentoVersionUploadStatus)
  | time (t : Option Time)
  | str (s : String)
  deriving DecidableEq, Repr

/-- The columns of a row of the table `bento_version` that `Update` writes. -/
structure Row where
  build_status : BentoVersionBuildStatus
  upload_status : BentoVersionUploadStatus
  upload_started_at : Option Time
  upload_finished_at : Option Time
  upload_finished_reason : String
  deriving DecidableEq, Repr

/-- The persisted table: the row of each id, if there is one. -/
abbrev Store := Nat → Option Row

/-- One column assignment of `Updates(updaters)` on a row. -/
def Row.set (r : Row) (column : String) (v : Value) : Row :=
  match v with
  | Value.buildStatus s => if column = "build_status" then { r with build_status := s } else r
  | Value.uploadStatus s => if column = "upload_status" then { r with upload_status := s } else r
  | Value.time t =>
    if column = "upload_started_at" then { r with upload_started_at := t }
    else if column = "upload_finished_at" then { r with upload_finished_at := t }
    else r
  | Value.str s =>
    if column = "upload_finished_reason" then { r with upload_finished_reason := s } else r

/-- The statement `Model(..).Where("id = ?", id).Updates(updaters)` when it
succeeds: the row with that id, if any, takes the given columns. -/
def Store.updates (st : Store) (id : Nat) (updaters : List (String × Value)) : Store :=
  fun i => if i = id then (st i).map (fun r => updaters.foldl (fun r kv => r.set kv.1 kv.2) r)
           else st i

/-- A call made by `Update` to the database session, to another service or to
the cluster API.  The association lookups made inside the naming helpers
read the same associations as the two lookups of `Update` and are not
listed. -/
inductive Event where
  | startTransaction
  | dbUpdates (id : Nat) (updaters : List (String × Value))
  | commit
  | rollback
  | getAssociatedBento
  | getAssociatedOrganization
  | getMajorCluster
  | getKubeCliSet
  | namespaceGet (name : String)
  | namespaceCreate (name : String)
  | secretGet (ns name : String)
  | secretCreate (ns name : String) (stringData : List (String × String))
  | configMapGet (ns name : String)
  | configMapCreate (ns name : String) (data : List (String × String))
  | podCreate (ns : String) (pod : Pod)
  deriving DecidableEq, Repr

/-- The collaborators of the service: for every call, the answer it gets.  An
answer `none` of a call that returns only an error is success. -/
structure Env where
  GetAssociatedBento : BentoVersion → Except Error Bento
  GetAssociatedOrganization : Bento → Except Error Organization
  GetMajorCluster : Organization → Except Error Cluster
  GetKubeCliSet : Cluster → Option Error
  startTransaction : Option Error
  dbUpdates : Nat → List (String × Value) → Option Error
  namespaceGet : String → Option Error
  namespaceCreate : String → Option Error
  secretGet : String → String → Option Error
  secretCreate : String → String → List (String × String) → Option Error
  configMapGet : String → String → Option Error
  configMapCreate : String → String → List (String × String) → Option Error
  podCreate : String → Pod → Option Error

/-! ## Naming scheme -/

/-- The method `getS3ObjectName`. -/
def getS3ObjectName (env : Env) (bentoVersion : BentoVersion) : Except Error String :=
  match env.GetAssociatedBento bentoVersion with
  | Except.error err => Except.error err
  | Except.ok bento =>
    match env.GetAssociatedOrganization bento with
    | Except.error err => Except.error err
    | Except.ok org =>
      let objectName :=
        Sprintf "bentos/%s/%s/%s.tar.gz" [org.Name, bento.Name, bentoVersion.Version]
      Except.ok objectName

/-- The method `GetImageName`. -/
def GetImageName (env : Env) (bentoVersion : BentoVersion) : Except Error String :=
  match env.GetAssociatedBento bentoVersion with
  | Except.error _ => Except.ok ""
  | Except.ok bento =>
    match env.GetAssociatedOrganization bento with
    | Except.error _ => Except.ok ""
    | Except.ok org =>
      match org.Config.bind (fun c => c.AWS) |>.bind (fun a => a.ECR) with
      | none => Except.error (Error.errorf (Sprintf "organization %s don't have ECR config" [org.Name]))
      | some ecr =>
        let imageName :=
          Sprintf "%s:yatai.%s.%s.%s" [ecr.RepositoryURI, org.Name, bento.Name, bentoVersion.Version]
        Except.ok imageName

/-- The method `GetImageBuilderKubeName`. -/
def GetImageBuilderKubeName (env : Env) (bentoVersion : BentoVersion) : Except Error String :=
  match env.GetAssociatedBento bentoVersion with
  | Except.error err => Except.error err
  | Except.ok bento =>
    match env.GetAssociatedOrganization bento with
    | Except.error err => Except.error err
    | Except.ok org =>
      Except.ok (ReplaceAll (ToKebab (Sprintf "yatai-image-builder-%s-%s-%s"
        [org.Name, bento.Name, bentoVersion.Version])) '.' '-')

/-! ## Update -/

/-- The template `awsSecretTemplate` executed on the two keys. -/
def awsSecret (accessKeyId secretAccessKey : String) : String :=
  "\n[default]\naws_access_key_id = " ++ accessKeyId ++
    "\naws_secret_access_key = " ++ secretAccessKey ++ "\n"

/-- The JSON document `json.Marshal` gives for the registry-auth
configuration, a structure with the one field `creds_store`. -/
def dockerCMContent : String := "\x7b\"creds_store\":\"ecr-login\"\x7d"

/-- The map `updaters` that `Update` fills from the option: one entry for
every field that is present. -/
def makeUpdaters (opt : UpdateBentoVersionOption) : List (String × Value) :=
  (match opt.BuildStatus with
   | some s => [("build_status", Value.buildStatus s)]
   | none => []) ++
  (match opt.UploadStatus with
   | some s => [("upload_status", Value.uploadStatus s)]
   | none => []) ++
  (match opt.UploadStartedAt with
   | some t => [("upload_started_at", Value.time t)]
   | none => []) ++
  (match opt.UploadFinishedAt with
   | some t => [("upload_finished_at", Value.time t)]
   | none => []) ++
  (match opt.UploadFinishedReason with
   | some r => [("upload_finished_reason", Value.str r)]
   | none => [])

/-- The deferred closures that `Update` registers for the fields present in
the option, run when the variable `err` is nil at return: the record in
memory takes the supplied values.  They run in the reverse of the order of
registration. -/
def applyMirrors (bentoVersion : BentoVersion) (opt : UpdateBentoVersionOption) :
    BentoVersion :=
  let bv := match opt.UploadFinishedReason with
    | some r => { bentoVersion with UploadFinishedReason := r }
    | none => bentoVersion
  let bv := match opt.UploadFinishedAt with
    | some t => { bv with UploadFinishedAt := t }
    | none => bv
  let bv := match opt.UploadStartedAt with
    | some t => { bv with UploadStartedAt := t }
    | none => bv
  let bv := match opt.UploadStatus with
    | some s => { bv with UploadStatus := s }
    | none => bv
  match opt.BuildStatus with
  | some s => { bv with BuildStatus := s }
  | none => bv

/-- Modelled from the spec: the function `df` that `startTransaction` returns,
absent from the source files.  The spec has the writes run "inside a scoped
transaction that is committed only if every step inside succeeds and rolled
back on any error": `df(err)` commits the table of the transaction when `err`
is nil and rolls back to the table before it otherwise. -/
def df (err : Option Error) (store tx : Store) : Store × Event :=
  match err with
  | none => (tx, Event.commit)
  | some _ => (store, Event.rollback)

/-- The state in which the body of `Update` returns, before the deferred
calls run. -/
structure Body where
  /-- The first result is the pointer `bentoVersion` (true) or nil (false). -/
  ptr : Bool
  /-- The second result. -/
  ret : Option Error
  /-- The value of the variable `err`, which the deferred closures read. -/
  err : Option Error
  /-- Whether the statement `defer func() { df(err) }()` was reached. -/
  deferDf : Bool
  /-- The table as the transaction sees it. -/
  tx : Store
  /-- The calls made, in order. -/
  trace : List Event

/-- The pod that `Update` submits. -/
def builderPod (kubeName dockerCMKubeName awsSecretKubeName : String) (s3 : S3Config)
    (s3ObjectName imageName : String) : Pod :=
  { Name := kubeName
    Spec :=
      { RestartPolicy := RestartPolicy.Never
        Volumes :=
          [ { Name := dockerCMKubeName, ConfigMap := some dockerCMKubeName, Secret := none },
            { Name := awsSecretKubeName, ConfigMap := none, Secret := some awsSecretKubeName } ]
        Containers :=
          [ { Name := "builder"
              Image := "gcr.io/kaniko-project/executor:latest"
              Args :=
                [ "--dockerfile=./Dockerfile",
                  Sprintf "--context=s3://%s/%s" [s3.BucketName, s3ObjectName],
                  Sprintf "--destination=%s" [imageName] ]
              VolumeMounts :=
                [ { Name := dockerCMKubeName, MountPath := "/kaniko/.docker/" },
                  { Name := awsSecretKubeName, MountPath := "/root/.aws/" } ]
              Env := [ { Name := "AWS_REGION", Value := s3.Region } ] } ] } }

/-- The part of the body of `Update` after the gate on the upload status:
from the lookup of the bento to the creation of the pod.  `tx` is the table
inside the transaction and `t` the calls made so far. -/
def Update.provision (env : Env) (tx : Store) (t : List Event)
    (bentoVersion : BentoVersion) : Body :=
  let t := t ++ [Event.getAssociatedBento]
  match env.GetAssociatedBento bentoVersion with
  | Except.error e => ⟨false, some e, some e, true, tx, t⟩
  | Except.ok bento =>
  let t := t ++ [Event.getAssociatedOrganization]
  match env.GetAssociatedOrganization bento with
  | Except.error e => ⟨false, some e, some e, true, tx, t⟩
  | Except.ok org =>
  let t := t ++ [Event.getMajorCluster]
  match env.GetMajorCluster org with
  | Except.error e => ⟨false, some e, some e, true, tx, t⟩
  | Except.ok majorCluster =>
  let t := t ++ [Event.getKubeCliSet]
  match env.GetKubeCliSet majorCluster with
  | some e => ⟨false, some e, some e, true, tx, t⟩
  | none =>
  let kubeNamespace := "yatai-builders"
  -- the namespace: get, create when not found; `err` is the error of the last call
  let t := t ++ [Event.namespaceGet kubeNamespace]
  let nsGetErr := env.namespaceGet kubeNamespace
  let t := if IsNotFound nsGetErr then t ++ [Event.namespaceCreate kubeNamespace] else t
  let err := if IsNotFound nsGetErr then env.namespaceCreate kubeNamespace else nsGetErr
  match err with
  | some e => ⟨false, some e, some e, true, tx, t⟩
  | none =>
  match org.Config.bind (fun c => c.AWS) with
  | none =>
    -- the error returned is not assigned to `err`, which is nil here
    ⟨false, some (Error.errorf (Sprintf "organization %s don't have aws config" [org.Name])),
      none, true, tx, t⟩
  | some aws =>
  let awsSecretKubeName := "aws-secret"
  -- the template is executed on a map that holds both keys: this does not fail
  let awsSecretBuffer := awsSecret aws.AccessKeyId aws.SecretAccessKey
  -- the secret: get, create when not found
  let t := t ++ [Event.secretGet kubeNamespace awsSecretKubeName]
  let secretGetErr := env.secretGet kubeNamespace awsSecretKubeName
  let secretData := [("credentials", awsSecretBuffer)]
  let t := if IsNotFound secretGetErr
    then t ++ [Event.secretCreate kubeNamespace awsSecretKubeName secretData] else t
  let err := if IsNotFound secretGetErr
    then env.secretCreate kubeNamespace awsSecretKubeName secretData else secretGetErr
  match err with
  | some e => ⟨false, some e, some e, true, tx, t⟩
  | none =>
  let dockerCMKubeName := "docker-config"
  -- `json.Marshal` of the one-field structure does not fail
  -- the config map: get, create when not found; the error of the create is
  -- not examined and `err` is assigned again by the next statement
  let t := t ++ [Event.configMapGet kubeNamespace dockerCMKubeName]
  let cmGetErr := env.configMapGet kubeNamespace dockerCMKubeName
  let cmData := [("config.json", dockerCMContent)]
  let t := if IsNotFound cmGetErr
    then t ++ [Event.configMapCreate kubeNamespace dockerCMKubeName cmData] else t
  let err := if IsNotFound cmGetErr then none else cmGetErr
  match err with
  | some e => ⟨false, some e, some e, true, tx, t⟩
  | none =>
  match GetImageBuilderKubeName env bentoVersion with
  | Except.error e => ⟨false, some e, some e, true, tx, t⟩
  | Except.ok kubeName =>
  match aws.S3 with
  | none =>
    -- again the error returned is not assigned to `err`, which is nil here
    ⟨false, some (Error.errorf (Sprintf "origanization %s don't have s3 config" [org.Name])),
      none, true, tx, t⟩
  | some s3 =>
  match getS3ObjectName env bentoVersion with
  | Except.error e => ⟨false, some e, some e, true, tx, t⟩
  | Except.ok s3ObjectName =>
  match GetImageName env bentoVersion with
  | Except.error e => ⟨false, some e, some e, true, tx, t⟩
  | Except.ok imageName =>
  let pod := builderPod kubeName dockerCMKubeName awsSecretKubeName s3 s3ObjectName imageName
  let t := t ++ [Event.podCreate kubeNamespace pod]
  let err := env.podCreate kubeNamespace pod
  ⟨true, err, err, true, tx, t⟩

/-- The body of `Update`, up to its return statement. -/
def Update.body (env : Env) (store : Store) (bentoVersion : BentoVersion)
    (opt : UpdateBentoVersionOption) : Body :=
  let updaters := makeUpdaters opt
  if updaters.length = 0 then ⟨true, none, none, false, store, []⟩ else
  let t := [Event.startTransaction]
  match env.startTransaction with
  | some e => ⟨false, some e, some e, false, store, t⟩
  | none =>
  let t := t ++ [Event.dbUpdates bentoVersion.ID updaters]
  match env.dbUpdates bentoVersion.ID updaters with
  | some e => ⟨false, some e, some e, true, store, t⟩
  | none =>
  let tx := store.updates bentoVersion.ID updaters
  if opt.UploadStatus ≠ some BentoVersionUploadStatus.Success then
    ⟨true, none, none, true, tx, t⟩
  else Update.provision env tx t bentoVersion

/-- What a call of `Update` leaves. -/
structure UpdateResult where
  /-- The first result: nil, or the record the returned pointer points to. -/
  ret : Option BentoVersion
  /-- The second result. -/
  err : Option Error
  /-- The record in memory that was passed in, after the call. -/
  bentoVersion : BentoVersion
  /-- The persisted table after the call. -/
  store : Store
  /-- The calls made, in order. -/
  trace : List Event

/-- The method `Update`: the body, then the deferred calls in the reverse of
the order of registration, first `df(err)`, then the closures that copy the
supplied values into the record in memory when `err` is nil. -/
def Update (env : Env) (store : Store) (bentoVersion : BentoVersion)
    (opt : UpdateBentoVersionOption) : UpdateResult :=
  let b := Update.body env store bentoVersion opt
  let d := df b.err store b.tx
  let store := if b.deferDf then d.1 else store
  let trace := if b.deferDf then b.trace ++ [d.2] else b.trace
  let record := match b.err with
    | none => applyMirrors bentoVersion opt
    | some _ => bentoVersion
  { ret := if b.ptr then some record else none
    err := b.ret
    bentoVersion := record
    store := store
    trace := trace }



/-! ## Predicates and inputs used by the theorems -/

/-- A version `1.0.0` of a bento, upload in progress. -/
def Example.version : BentoVersion :=
  { ID := 7, CreatorId := 1, BentoId := 3, Version := "1.0.0", Description := "",
    BuildStatus := BentoVersionBuildStatus.Pending,
    UploadStatus := BentoVersionUploadStatus.Uploading,
    UploadStartedAt := none, UploadFinishedAt := none, UploadFinishedReason := "",
    BuildAt := 0 }

/-- The bento `resnet`. -/
def Example.bento : Bento := { ID := 3, OrganizationId := 1, Name := "resnet" }

/-- The organization `acme`, fully configured. -/
def Example.org : Organization :=
  { ID := 1, Name := "acme",
    Config := some (OrganizationConfig.mk (some
      { AccessKeyId := "AK", SecretAccessKey := "SK",
        ECR := some (ECRConfig.mk "registry.example/repo"),
        S3 := some (S3Config.mk "bucket" "us-east-1") })) }

/-- Collaborators that all answer with success, for a given organization, on a
cluster that has none of the resources yet: every get answers not found. -/
def Example.env (org : Organization) : Env :=
  { GetAssociatedBento := fun _ => Except.ok Example.bento
    GetAssociatedOrganization := fun _ => Except.ok org
    GetMajorCluster := fun _ => Except.ok { ID := 1, KubeConfig := "" }
    GetKubeCliSet := fun _ => none
    startTransaction := none
    dbUpdates := fun _ _ => none
    namespaceGet := fun _ => some (Error.notFound "namespaces \"yatai-builders\" not found")
    namespaceCreate := fun _ => none
    secretGet := fun _ _ => some (Error.notFound "secrets \"aws-secret\" not found")
    secretCreate := fun _ _ _ => none
    configMapGet := fun _ _ => some (Error.notFound "configmaps \"docker-config\" not found")
    configMapCreate := fun _ _ _ => none
    podCreate := fun _ _ => none }

/-- A name made only of lower-case letters, or only of digits. -/
def isWord (s : String) : Bool := s.data.all isLow || s.data.all isNum

/-- A character that is a lower-case letter, a digit or a hyphen. -/
def isPlain (c : Char) : Bool := isLow c || isNum c || c = '-'

/-- No lower-case letter stands next to a digit. -/
def noMix : List Char → Bool
  | [] => true
  | [_] => true
  | a :: b :: r => !(isLow a && isNum b) && !(isNum a && isLow b) && noMix (b :: r)

/-- A character of a dotted version: a lower-case letter, a digit or a dot. -/
def isDottedChar (c : Char) : Bool := isLow c || isNum c || c = '.'

/-- A version made of lower-case letters, digits and dots in which no letter
stands next to a digit, such as `1.0.0`. -/
def isDotted (s : String) : Bool := s.data.all isDottedChar && noMix s.data

/-- The character that a character of a name becomes in the build-job name
when nothing else changes: a dot becomes a hyphen. -/
def dotToHyphen (c : Char) : Char := if c = '.' then '-' else c

/-- Lookups for six bentos: bentos 1 and 2 are `c` and `b-c` of the
organizations `a-b` and `a`; bentos 3, 4, 5 and 6 are `b`, `b/c`, `b.c` and
`b1` of the organization `a`. -/
def Example.collisionEnv : Env :=
  { Example.env Example.org with
    GetAssociatedBento := fun bv =>
      if bv.BentoId = 1 then Except.ok { ID := 1, OrganizationId := 1, Name := "c" }
      else if bv.BentoId = 2 then Except.ok { ID := 2, OrganizationId := 2, Name := "b-c" }
      else if bv.BentoId = 3 then Except.ok { ID := 3, OrganizationId := 2, Name := "b" }
      else if bv.BentoId = 4 then Except.ok { ID := 4, OrganizationId := 2, Name := "b/c" }
      else if bv.BentoId = 5 then Except.ok { ID := 5, OrganizationId := 2, Name := "b.c" }
      else Except.ok { ID := 6, OrganizationId := 2, Name := "b1" }
    GetAssociatedOrganization := fun b =>
      if b.OrganizationId = 1 then Except.ok { ID := 1, Name := "a-b", Config := none }
      else Except.ok { ID := 2, Name := "a", Config := none } }

/-- The version `version` of the bento with id `bentoId`. -/
def Example.versionOf (bentoId : Nat) (version : String) : BentoVersion :=
  { Example.version with ID := bentoId, BentoId := bentoId, Version := version }

/-- The change set in which all five fields are absent. -/
def UpdateBentoVersionOption.empty : UpdateBentoVersionOption :=
  { BuildStatus := none, UploadStatus := none, UploadStartedAt := none,
    UploadFinishedAt := none, UploadFinishedReason := none }

/-- A call that resolves the cluster or addresses the orchestration backend. -/
def Event.isClusterCall : Event → Bool
  | Event.getMajorCluster => true
  | Event.getKubeCliSet => true
  | Event.namespaceGet _ => true
  | Event.namespaceCreate _ => true
  | Event.secretGet _ _ => true
  | Event.secretCreate _ _ _ => true
  | Event.configMapGet _ _ => true
  | Event.configMapCreate _ _ _ => true
  | Event.podCreate _ _ => true
  | _ => false

/-- A create request to the orchestration backend. -/
def Event.isCreate : Event → Bool
  | Event.namespaceCreate _ => true
  | Event.secretCreate _ _ _ => true
  | Event.configMapCreate _ _ _ => true
  | Event.podCreate _ _ => true
  | _ => false

/-- The create request of the build pod. -/
def Event.isPodCreate : Event → Bool
  | Event.podCreate _ _ => true
  | _ => false

/-- The kind of a call: the operation, without its arguments, numbered in the
order in which `Update` reaches the operations. -/
def Event.kind : Event → Nat
  | Event.startTransaction => 0
  | Event.dbUpdates _ _ => 1
  | Event.getAssociatedBento => 2
  | Event.getAssociatedOrganization => 3
  | Event.getMajorCluster => 4
  | Event.getKubeCliSet => 5
  | Event.namespaceGet _ => 6
  | Event.namespaceCreate _ => 7
  | Event.secretGet _ _ => 8
  | Event.secretCreate _ _ _ => 9
  | Event.configMapGet _ _ => 10
  | Event.configMapCreate _ _ _ => 11
  | Event.podCreate _ _ => 12
  | Event.commit => 13
  | Event.rollback => 14

/-- A table with the row of `Example.version`. -/
def Example.store : Store := fun i =>
  if i = 7 then some
    { build_status := BentoVersionBuildStatus.Pending,
      upload_status := BentoVersionUploadStatus.Uploading,
      upload_started_at := none, upload_finished_at := none, upload_finished_reason := "" }
  else none

/-- The change set that reports the upload as finished with success. -/
def Example.uploadSuccess : UpdateBentoVersionOption :=
  { UpdateBentoVersionOption.empty with UploadStatus := some BentoVersionUploadStatus.Success }

/-- A finished version: built and uploaded with success. -/
def Example.finished : BentoVersion :=
  { Example.version with
    BuildStatus := BentoVersionBuildStatus.Success,
    UploadStatus := BentoVersionUploadStatus.Success }

/-- A table with the row of `Example.finished`. -/
def Example.finishedStore : Store := fun i =>
  if i = 7 then some
    { build_status := BentoVersionBuildStatus.Success,
      upload_status := BentoVersionUploadStatus.Success,
      upload_started_at := none, upload_finished_at := none, upload_finished_reason := "" }
  else none

/-- The change set that asks for both statuses to go back to pending. -/
def Example.backToPending : UpdateBentoVersionOption :=
  { UpdateBentoVersionOption.empty with
    BuildStatus := some BentoVersionBuildStatus.Pending,
    UploadStatus := some BentoVersionUploadStatus.Pending }

/-- The steps of `Update` before the check of the AWS configuration all
succeed: the transaction starts, the write succeeds, the bento, the
organization, its major cluster and the client resolve, and the namespace is
found, or is not found and then created. -/
def ReachesAwsCheck (env : Env) (bentoVersion : BentoVersion)
    (opt : UpdateBentoVersionOption) (bento : Bento) (org : Organization) : Prop :=
  env.startTransaction = none ∧
  env.dbUpdates bentoVersion.ID (makeUpdaters opt) = none ∧
  env.GetAssociatedBento bentoVersion = Except.ok bento ∧
  env.GetAssociatedOrganization bento = Except.ok org ∧
  (∃ c, env.GetMajorCluster org = Except.ok c ∧ env.GetKubeCliSet c = none) ∧
  (env.namespaceGet "yatai-builders" = none ∨
    (IsNotFound (env.namespaceGet "yatai-builders") = true ∧
      env.namespaceCreate "yatai-builders" = none))

/-- The two steps of `Update` between the check of the AWS configuration and
the check of the S3 configuration do not fail: the secret is found, or is not
found and then created, and the get of the config map answers with success or
with not found. -/
def ReachesS3Check (env : Env) (aws : AWSConfig) : Prop :=
  (env.secretGet "yatai-builders" "aws-secret" = none ∨
    (IsNotFound (env.secretGet "yatai-builders" "aws-secret") = true ∧
      env.secretCreate "yatai-builders" "aws-secret"
        [("credentials", awsSecret aws.AccessKeyId aws.SecretAccessKey)] = none)) ∧
  (env.configMapGet "yatai-builders" "docker-config" = none ∨
    IsNotFound (env.configMapGet "yatai-builders" "docker-config") = true)

/-- The organization `acme` without any configuration. -/
def Example.orgNoConfig : Organization := { Example.org with Config := none }

/-- The organization `acme` with AWS keys and an S3 bucket but no registry. -/
def Example.orgNoECR : Organization :=
  { Example.org with
    Config := some (OrganizationConfig.mk (some
      { AccessKeyId := "AK", SecretAccessKey := "SK",
        ECR := none, S3 := some (S3Config.mk "bucket" "us-east-1") })) }

/-- Collaborators as in `Example.env`, but the lookup of the owning bento
fails. -/
def Example.envNoBento : Env :=
  { Example.env Example.org with
    GetAssociatedBento := fun _ => Except.error (Error.notFound "record not found") }

/-- Collaborators as in `Example.env`, but the lookup of the owning
organization fails. -/
def Example.envNoOrganization : Env :=
  { Example.env Example.org with
    GetAssociatedOrganization := fun _ => Except.error (Error.notFound "record not found") }

/-- Collaborators as in `Example.env` for the organization `acme`, but the
create request for the config map is rejected. -/
def Example.envConfigMapRejected : Env :=
  { Example.env Example.org with
    configMapCreate := fun _ _ _ =>
      some (Error.other "configmaps is forbidden") }

/-- Collaborators as in `Example.env` for the organization `acme`, on a cluster
where an earlier call has already provisioned everything: the namespace, the
secret and the config map are found, and the pod of this version exists, so
the request to create it is rejected with already exists. -/
def Example.envSecondRun : Env :=
  { Example.env Example.org with
    namespaceGet := fun _ => none
    secretGet := fun _ _ => none
    configMapGet := fun _ _ => none
    podCreate := fun _ _ => some (Error.alreadyExists
      "pods \"yatai-image-builder-acme-resnet-1-0-0\" already exists") }

/-- Collaborators as in `Example.env` for the organization `acme`, when a
concurrent call creates the namespace between the get and the create: the get
answers not found and the create answers already exists. -/
def Example.envNamespaceRace : Env :=
  { Example.env Example.org with
    namespaceCreate := fun _ => some (Error.alreadyExists
      "namespaces \"yatai-builders\" already exists") }

/-- Collaborators as in `Example.env` for the organization `acme`, when a
concurrent call creates the secret between the get and the create. -/
def Example.envSecretRace : Env :=
  { Example.env Example.org with
    secretCreate := fun _ _ _ => some (Error.alreadyExists
      "secrets \"aws-secret\" already exists") }

/-- The steps of `Update` before the namespace step all succeed: the
transaction starts, the write succeeds, and the bento, the organization, its
major cluster and the client resolve. -/
def ReachesNamespace (env : Env) (bentoVersion : BentoVersion)
    (opt : UpdateBentoVersionOption) (bento : Bento) (org : Organization) : Prop :=
  env.startTransaction = none ∧
  env.dbUpdates bentoVersion.ID (makeUpdaters opt) = none ∧
  env.GetAssociatedBento bentoVersion = Except.ok bento ∧
  env.GetAssociatedOrganization bento = Except.ok org ∧
  (∃ c, env.GetMajorCluster org = Except.ok c ∧ env.GetKubeCliSet c = none)

/-! ## Create -/

/-- The option of `Create`.  The manifest, a document that the service only
copies into the record, is left out. -/
structure CreateBentoVersionOption where
  CreatorId : Nat
  BentoId : Nat
  Version : String
  Description : String
  BuildAt : Time
  deriving DecidableEq, Repr

/-- The outcome of a call into the object-store library: it returns a value
or it panics. -/
inductive Call (α : Type) where
  | returns (a : α)
  | panics

/-- The answers of the methods of a `*minio.Client`. -/
structure MinioClient where
  MakeBucket : String → String → Call (Option Error)
  BucketExists : String → Call (Except Error Bool)
  PresignedPutObject : String → String → Nat → Call (Except Error String)

/-- The collaborators of `Create` besides those of `Env`: the insert of the
record (which answers with the id of the new row), the lookup of the bento by
id, and the constructor of the object-store client.  When the constructor
fails the client is nil; `nilClient` gives what the methods of the library do
on the nil client. -/
structure CreateEnv where
  dbCreate : BentoVersion → Except Error Nat
  BentoGet : Nat → Except Error Bento
  minioNew : String → String → Except Error MinioClient
  nilClient : MinioClient

/-- A call made by `Create`. -/
inductive CreateEvent where
  | startTransaction
  | dbCreate (bentoVersion : BentoVersion)
  | bentoGet (id : Nat)
  | getAssociatedOrganization
  | minioNew (accessKeyId secretAccessKey : String)
  | makeBucket (bucketName region : String)
  | bucketExists (bucketName : String)
  | presignedPutObject (bucketName objectName : String) (expires : Nat)
  | commit
  | rollback
  deriving DecidableEq, Repr

/-- The duration `time.Hour`, in nanoseconds. -/
def Hour : Nat := 60 * (60 * 1000000000)

/-- The call `errors.Wrap(err, message)`: the error with the message put in
front of its text. -/
def Wrap (err : Error) (message : String) : Error :=
  match err with
  | Error.errorf m => Error.errorf (message ++ ": " ++ m)
  | Error.notFound m => Error.notFound (message ++ ": " ++ m)
  | Error.alreadyExists m => Error.alreadyExists (message ++ ": " ++ m)
  | Error.other m => Error.other (message ++ ": " ++ m)

/-- The statement `db.Create(bentoVersion)` when it succeeds with the id `id`:
the table has the row of the new record. -/
def Store.create (st : Store) (id : Nat) (bentoVersion : BentoVersion) : Store :=
  fun i => if i = id then some
    { build_status := bentoVersion.BuildStatus
      upload_status := bentoVersion.UploadStatus
      upload_started_at := bentoVersion.UploadStartedAt
      upload_finished_at := bentoVersion.UploadFinishedAt
      upload_finished_reason := bentoVersion.UploadFinishedReason }
  else st i

/-- The state in which the body of `Create` stops, before the deferred call
runs: the named results `bentoVersion`, `url` and `err`, or a panic. -/
structure CreateBody where
  /-- The body panicked instead of returning. -/
  panicked : Bool
  /-- The named result `bentoVersion`. -/
  bentoVersion : Option BentoVersion
  /-- The named result `url`. -/
  url : Option String
  /-- The named result `err`, which the deferred `df(err)` reads. -/
  err : Option Error
  /-- Whether the statement `defer func() { df(err) }()` was reached. -/
  deferDf : Bool
  /-- The table as the transaction sees it. -/
  tx : Store
  /-- The calls made, in order. -/
  trace : List CreateEvent

/-- The body of `Create`. -/
def Create.body (env : Env) (os : CreateEnv) (store : Store)
    (opt : CreateBentoVersionOption) : CreateBody :=
  let t := [CreateEvent.startTransaction]
  match env.startTransaction with
  | some e => ⟨false, none, none, some e, false, store, t⟩
  | none =>
  let bentoVersion : BentoVersion :=
    { ID := 0, CreatorId := opt.CreatorId, BentoId := opt.BentoId, Version := opt.Version,
      Description := opt.Description,
      BuildStatus := BentoVersionBuildStatus.Pending,
      UploadStatus := BentoVersionUploadStatus.Pending,
      UploadStartedAt := none, UploadFinishedAt := none, UploadFinishedReason := "",
      BuildAt := opt.BuildAt }
  let t := t ++ [CreateEvent.dbCreate bentoVersion]
  match os.dbCreate bentoVersion with
  | Except.error e => ⟨false, some bentoVersion, none, some e, true, store, t⟩
  | Except.ok id =>
  let bentoVersion := { bentoVersion with ID := id }
  let tx := store.create id bentoVersion
  let t := t ++ [CreateEvent.bentoGet opt.BentoId]
  match os.BentoGet opt.BentoId with
  | Except.error e => ⟨false, some bentoVersion, none, some e, true, tx, t⟩
  | Except.ok bento =>
  let t := t ++ [CreateEvent.getAssociatedOrganization]
  match env.GetAssociatedOrganization bento with
  | Except.error e => ⟨false, some bentoVersion, none, some e, true, tx, t⟩
  | Except.ok org =>
  match org.Config with
  | none =>
    ⟨false, some bentoVersion, none,
      some (Error.errorf "This organization does not have configuration"), true, tx, t⟩
  | some config =>
  match config.AWS with
  | none =>
    ⟨false, some bentoVersion, none,
      some (Error.errorf "This organization does not have aws s3 storage set up"), true, tx, t⟩
  | some aws =>
  match aws.S3 with
  | none =>
    ⟨false, some bentoVersion, none,
      some (Error.errorf "This organization does not have aws s3 storage set up"), true, tx, t⟩
  | some minioConf =>
  let t := t ++ [CreateEvent.minioNew aws.AccessKeyId aws.SecretAccessKey]
  -- when the constructor fails the error is wrapped and the function goes on
  -- with the nil client: there is no return in this branch
  let minioClient := match os.minioNew aws.AccessKeyId aws.SecretAccessKey with
    | Except.ok c => c
    | Except.error _ => os.nilClient
  let err := match os.minioNew aws.AccessKeyId aws.SecretAccessKey with
    | Except.ok _ => none
    | Except.error e => some (Wrap e "create s3 client")
  let bucketName := minioConf.BucketName
  let t := t ++ [CreateEvent.makeBucket bucketName minioConf.Region]
  match minioClient.MakeBucket bucketName minioConf.Region with
  | Call.panics => ⟨true, some bentoVersion, none, err, true, tx, t⟩
  | Call.returns makeErr =>
  -- `err` is now the error of `MakeBucket`; when it is not nil the bucket is
  -- looked up, and the function returns unless the bucket exists
  let t := match makeErr with
    | some _ => t ++ [CreateEvent.bucketExists bucketName]
    | none => t
  let bucketCheck : Call (Option Error) := match makeErr with
    | none => Call.returns none
    | some e =>
      match minioClient.BucketExists bucketName with
      | Call.panics => Call.panics
      | Call.returns (Except.ok true) => Call.returns none
      | Call.returns _ =>
        Call.returns (some (Wrap e (Sprintf "create bucket %s" [bucketName])))
  match bucketCheck with
  | Call.panics => ⟨true, some bentoVersion, none, makeErr, true, tx, t⟩
  | Call.returns (some e) => ⟨false, some bentoVersion, none, some e, true, tx, t⟩
  | Call.returns none =>
  match getS3ObjectName env bentoVersion with
  | Except.error e => ⟨false, some bentoVersion, none, some e, true, tx, t⟩
  | Except.ok objectName =>
  let t := t ++ [CreateEvent.presignedPutObject bucketName objectName Hour]
  match minioClient.PresignedPutObject bucketName objectName Hour with
  | Call.panics => ⟨true, some bentoVersion, none, none, true, tx, t⟩
  | Call.returns (Except.error e) =>
    ⟨false, some bentoVersion, none, some (Wrap e "presigned put object"), true, tx, t⟩
  | Call.returns (Except.ok url) => ⟨false, some bentoVersion, some url, none, true, tx, t⟩

/-- What a call of `Create` leaves: a panic, or the three results; the
persisted table; the calls made. -/
structure CreateResult where
  panicked : Bool
  bentoVersion : Option BentoVersion
  url : Option String
  err : Option Error
  store : Store
  trace : List CreateEvent

/-- The deferred call of `Create`, run when the body stops: `df(err)` on the
named result `err`.  Modelled from the spec: on a panic the transaction is
rolled back, the spec promising "guaranteed release/rollback on all exit
paths, including panics". -/
def Create.deferred (store : Store) (b : CreateBody) : CreateResult :=
  let after : Store := if b.panicked then store else (df b.err store b.tx).1
  let last : CreateEvent :=
    if b.panicked then CreateEvent.rollback
    else match b.err with
      | none => CreateEvent.commit
      | some _ => CreateEvent.rollback
  { panicked := b.panicked
    bentoVersion := if b.panicked then none else b.bentoVersion
    url := if b.panicked then none else b.url
    err := if b.panicked then none else b.err
    store := if b.deferDf then after else store
    trace := if b.deferDf then b.trace ++ [last] else b.trace }

/-- The method `Create`: the body, then the deferred call. -/
def Create (env : Env) (os : CreateEnv) (store : Store)
    (opt : CreateBentoVersionOption) : CreateResult :=
  Create.deferred store (Create.body env os store opt)

/-- An object-store client whose calls all succeed: the bucket is created and
the upload URL is made from the bucket and the object name. -/
def Example.client : MinioClient :=
  { MakeBucket := fun _ _ => Call.returns none
    BucketExists := fun _ => Call.returns (Except.ok true)
    PresignedPutObject := fun b o _ =>
      Call.returns (Except.ok ("https://s3.amazonaws.com/" ++ b ++ "/" ++ o)) }

/-- The nil client: a call of one of its methods dereferences nil and
panics. -/
def Example.nilClient : MinioClient :=
  { MakeBucket := fun _ _ => Call.panics
    BucketExists := fun _ => Call.panics
    PresignedPutObject := fun _ _ _ => Call.panics }

/-- Collaborators of `Create` that all answer with success; the new row gets
the id 8. -/
def Example.createEnv : CreateEnv :=
  { dbCreate := fun _ => Except.ok 8
    BentoGet := fun _ => Except.ok Example.bento
    minioNew := fun _ _ => Except.ok Example.client
    nilClient := Example.nilClient }

/-- Collaborators of `Create` as in `Example.createEnv`, but the object-store
client cannot be constructed. -/
def Example.createEnvNoClient : CreateEnv :=
  { Example.createEnv with
    minioNew := fun _ _ => Except.error (Error.other "endpoint url cannot be parsed") }

/-- The registration of the version `1.0.1` of the bento `resnet`. -/
def Example.createOption : CreateBentoVersionOption :=
  { CreatorId := 1, BentoId := 3, Version := "1.0.1", Description := "", BuildAt := 0 }

/-! ## Formatting lemmas -/

theorem Sprintf_objectName (o a v : String) :
    Sprintf "bentos/%s/%s/%s.tar.gz" [o, a, v] =
      "bentos/" ++ o ++ "/" ++ a ++ "/" ++ v ++ ".tar.gz" := by
  apply String.ext
  simp [Sprintf, sprintfAux]

theorem Sprintf_kubeName (o a v : String) :
    Sprintf "yatai-image-builder-%s-%s-%s" [o, a, v] =
      "yatai-image-builder-" ++ o ++ "-" ++ a ++ "-" ++ v := by
  apply String.ext
  simp [Sprintf, sprintfAux]

theorem Sprintf_imageName (r o a v : String) :
    Sprintf "%s:yatai.%s.%s.%s" [r, o, a, v] =
      r ++ ":yatai." ++ o ++ "." ++ a ++ "." ++ v := by
  apply String.ext
  simp [Sprintf, sprintfAux]

theorem Sprintf_context (b n : String) :
    Sprintf "--context=s3://%s/%s" [b, n] = "--context=s3://" ++ b ++ "/" ++ n := by
  apply String.ext
  simp [Sprintf, sprintfAux]

theorem Sprintf_destination (i : String) :
    Sprintf "--destination=%s" [i] = "--destination=" ++ i := by
  apply String.ext
  simp [Sprintf, sprintfAux]

theorem Sprintf_noAws (o : String) :
    Sprintf "organization %s don't have aws config" [o] =
      "organization " ++ o ++ " don't have aws config" := by
  apply String.ext
  simp [Sprintf, sprintfAux]

theorem Sprintf_noS3 (o : String) :
    Sprintf "origanization %s don't have s3 config" [o] =
      "origanization " ++ o ++ " don't have s3 config" := by
  apply String.ext
  simp [Sprintf, sprintfAux]

theorem Sprintf_noEcr (o : String) :
    Sprintf "organization %s don't have ECR config" [o] =
      "organization " ++ o ++ " don't have ECR config" := by
  apply String.ext
  simp [Sprintf, sprintfAux]

/-- C1: when the owning bento and organization resolve, `getS3ObjectName`
returns, without error, the string `bentos/` ++ organization name ++ `/` ++
bento name ++ `/` ++ version ++ `.tar.gz`; for `acme`, `resnet`, `1.0.0` it is
`bentos/acme/resnet/1.0.0.tar.gz`. -/
theorem getS3ObjectName_format (env : Env) (bentoVersion : BentoVersion) (bento : Bento)
    (org : Organization)
    (hb : env.GetAssociatedBento bentoVersion = Except.ok bento)
    (ho : env.GetAssociatedOrganization bento = Except.ok org) :
    getS3ObjectName env bentoVersion =
        Except.ok ("bentos/" ++ org.Name ++ "/" ++ bento.Name ++ "/" ++
          bentoVersion.Version ++ ".tar.gz") ∧
      (org.Name = "acme" → bento.Name = "resnet" → bentoVersion.Version = "1.0.0" →
        getS3ObjectName env bentoVersion = Except.ok "bentos/acme/resnet/1.0.0.tar.gz") := by
  have h : getS3ObjectName env bentoVersion =
      Except.ok ("bentos/" ++ org.Name ++ "/" ++ bento.Name ++ "/" ++
        bentoVersion.Version ++ ".tar.gz") := by
    simp only [getS3ObjectName, hb, ho, Sprintf_objectName]
  refine ⟨h, ?_⟩
  intro h1 h2 h3
  rw [h, h1, h2, h3]
  rfl

theorem getS3ObjectName_format_witness :
    getS3ObjectName (Example.env Example.org) Example.version =
      Except.ok "bentos/acme/resnet/1.0.0.tar.gz" :=
  (getS3ObjectName_format (Example.env Example.org) Example.version Example.bento
    Example.org rfl rfl).2 rfl rfl rfl

theorem append_cons_inj {α : Type} (c : α) :
    ∀ (xs ys r s : List α), c ∉ xs → c ∉ ys → xs ++ c :: r = ys ++ c :: s →
      xs = ys ∧ r = s
  | [], [], r, s, _, _, h => by simpa using h
  | [], y :: ys, r, s, _, hy, h => by
    simp only [List.nil_append, List.cons_append, List.cons.injEq] at h
    exact absurd h.1 (fun e => hy (by simp [e]))
  | x :: xs, [], r, s, hx, _, h => by
    simp only [List.nil_append, List.cons_append, List.cons.injEq] at h
    exact absurd h.1 (fun e => hx (by simp [e]))
  | x :: xs, y :: ys, r, s, hx, hy, h => by
    simp only [List.cons_append, List.cons.injEq] at h
    have ih := append_cons_inj c xs ys r s (fun m => hx (List.mem_cons_of_mem _ m))
      (fun m => hy (List.mem_cons_of_mem _ m)) h.2
    exact ⟨by rw [h.1, ih.1], ih.2⟩

theorem objectName_inj (o₁ a₁ v₁ o₂ a₂ v₂ : String)
    (h₁ : '/' ∉ o₁.data) (h₂ : '/' ∉ a₁.data) (h₃ : '/' ∉ o₂.data) (h₄ : '/' ∉ a₂.data)
    (h : "bentos/" ++ o₁ ++ "/" ++ a₁ ++ "/" ++ v₁ ++ ".tar.gz" =
      "bentos/" ++ o₂ ++ "/" ++ a₂ ++ "/" ++ v₂ ++ ".tar.gz") :
    o₁ = o₂ ∧ a₁ = a₂ ∧ v₁ = v₂ := by
  have hd := congrArg String.data h
  simp only [String.data_append, List.append_assoc] at hd
  have hd := List.append_cancel_left hd
  have e1 := append_cons_inj '/' o₁.data o₂.data _ _ h₁ h₃ hd
  have e2 := append_cons_inj '/' a₁.data a₂.data _ _ h₂ h₄ e1.2
  have e3 : v₁.data ++ ".tar.gz".data = v₂.data ++ ".tar.gz".data := e2.2
  have e3 := List.append_cancel_right e3
  exact ⟨String.ext e1.1, String.ext e2.1, String.ext e3⟩

theorem isLow_not_isCap (c : Char) (h : isLow c = true) : isCap c = false := by
  simp only [isLow, isCap, Bool.and_eq_true, decide_eq_true_eq, Bool.and_eq_false_imp] at *
  have h1 : 'a'.toNat = 97 := rfl
  have h2 : 'Z'.toNat = 90 := rfl
  intro _
  simp; omega

theorem isNum_not_isCap (c : Char) (h : isNum c = true) : isCap c = false := by
  simp only [isNum, isCap, Bool.and_eq_true, decide_eq_true_eq, Bool.and_eq_false_imp] at *
  have h1 : '9'.toNat = 57 := rfl
  have h2 : 'A'.toNat = 65 := rfl
  intro _
  simp; omega

theorem isPlain_cases (c : Char) (h : isPlain c = true) :
    isLow c = true ∨ isNum c = true ∨ c = '-' := by
  simpa [isPlain, or_assoc] using h

theorem isPlain_not_isCap (c : Char) (h : isPlain c = true) : isCap c = false := by
  rcases isPlain_cases c h with h | h | h
  · exact isLow_not_isCap c h
  · exact isNum_not_isCap c h
  · subst h; rfl

theorem isPlain_not_isSpace (c : Char) (h : isPlain c = true) : isSpace c = false := by
  rcases isPlain_cases c h with h | h | h
  · simp only [isLow, Bool.and_eq_true, decide_eq_true_eq] at h
    have h1 : 'a'.toNat = 97 := rfl
    have h2 : 'z'.toNat = 122 := rfl
    rw [h1, h2] at h
    have hne : ∀ d : Char, d.toNat < 97 → c ≠ d := fun d hd e => by subst e; omega
    simp [isSpace, hne]
    omega
  · simp only [isNum, Bool.and_eq_true, decide_eq_true_eq] at h
    have h1 : '0'.toNat = 48 := rfl
    have h2 : '9'.toNat = 57 := rfl
    rw [h1, h2] at h
    have hne : ∀ d : Char, d.toNat < 48 → c ≠ d := fun d hd e => by subst e; omega
    simp [isSpace, hne]
    omega
  · subst h; rfl

theorem isPlain_separator (c : Char) (h : isPlain c = true) (hs : isSeparator c = true) :
    '-' = c := by
  have hc : c = ' ' ∨ c = '_' ∨ c = '-' ∨ c = '.' := by
    simpa [isSeparator, or_assoc] using hs
  rcases hc with e | e | e | e
  · subst e; exact absurd h (by decide)
  · subst e; exact absurd h (by decide)
  · subst e; rfl
  · subst e; exact absurd h (by decide)

theorem delimitedLoop_plain : ∀ (cs : List Char) (prev : Option Char),
    (∀ c ∈ cs, isPlain c = true) → noMix cs = true →
    delimitedLoop '-' [] false prev cs = cs
  | [], _, _, _ => by simp [delimitedLoop]
  | [v], _, h, _ => by
    have hv : isPlain v = true := h v (by simp)
    have hp := isPlain_separator v hv
    simp only [delimitedLoop, isPlain_not_isCap v hv, Bool.and_false, Bool.false_and,
      Bool.not_false, Bool.and_true, Bool.false_eq_true, if_false]
    simpa using hp
  | v :: n :: r, prev, h, hm => by
    have hv : isPlain v = true := h v (by simp)
    have hn : isPlain n = true := h n (by simp)
    have ih := delimitedLoop_plain (n :: r) (some v)
      (fun c hc => h c (List.mem_cons_of_mem _ hc))
      (by simp only [noMix, Bool.and_eq_true] at hm; exact hm.2)
    have hp := isPlain_separator v hv
    simp only [noMix, Bool.and_eq_true, Bool.not_eq_true', Bool.and_eq_false_imp] at hm
    have hm1 : (isLow v && isNum n) = false := by
      cases hl : isLow v
      · rfl
      · simpa using hm.1.1 hl
    have hm2 : (isNum v && isLow n) = false := by
      cases hl : isNum v
      · rfl
      · simpa using hm.1.2 hl
    rw [delimitedLoop.eq_def]
    simp only [isPlain_not_isCap v hv, isPlain_not_isCap n hn, Bool.and_false, Bool.false_and,
      Bool.not_false, Bool.and_true, Bool.false_eq_true, if_false, Bool.false_or, Bool.or_false,
      hm1, hm2, ih]
    simpa using hp

theorem dropWhile_isSpace_plain : ∀ (cs : List Char), (∀ c ∈ cs, isPlain c = true) →
    cs.dropWhile isSpace = cs
  | [], _ => rfl
  | c :: cs, h => by
    simp [List.dropWhile, isPlain_not_isSpace c (h c (by simp))]

theorem trimSpace_plain (cs : List Char) (h : ∀ c ∈ cs, isPlain c = true) :
    trimSpace cs = cs := by
  unfold trimSpace
  rw [dropWhile_isSpace_plain cs h,
    dropWhile_isSpace_plain cs.reverse (fun c hc => h c (List.mem_reverse.mp hc)),
    List.reverse_reverse]

theorem ToKebab_plain (s : String) (h : ∀ c ∈ s.data, isPlain c = true)
    (hm : noMix s.data = true) : ToKebab s = s := by
  apply String.ext
  show delimitedLoop '-' [] false none (trimSpace s.data) = s.data
  rw [trimSpace_plain _ h, delimitedLoop_plain _ _ h hm]

theorem isLow_not_isNum (c : Char) (h : isLow c = true) : isNum c = false := by
  simp only [isLow, isNum, Bool.and_eq_true, decide_eq_true_eq, Bool.and_eq_false_imp] at *
  have h1 : 'a'.toNat = 97 := rfl
  have h2 : '9'.toNat = 57 := rfl
  intro _
  simp; omega

theorem isNum_not_isLow (c : Char) (h : isNum c = true) : isLow c = false := by
  cases hl : isLow c
  · rfl
  · rw [isLow_not_isNum c hl] at h; exact absurd h (by decide)

theorem isWord_cases (s : String) (h : isWord s = true) :
    (∀ c ∈ s.data, isLow c = true) ∨ (∀ c ∈ s.data, isNum c = true) := by
  simpa [isWord] using h

theorem word_isPlain (xs : List Char)
    (h : (∀ c ∈ xs, isLow c = true) ∨ (∀ c ∈ xs, isNum c = true)) :
    ∀ c ∈ xs, isPlain c = true := by
  intro c hc
  rcases h with h | h
  · simp [isPlain, h c hc]
  · simp [isPlain, h c hc]

theorem word_no_hyphen (xs : List Char)
    (h : (∀ c ∈ xs, isLow c = true) ∨ (∀ c ∈ xs, isNum c = true)) : '-' ∉ xs := by
  intro hc
  rcases h with h | h
  · exact absurd (h _ hc) (by decide)
  · exact absurd (h _ hc) (by decide)

theorem noMix_hyphen (ys : List Char) (h : noMix ys = true) : noMix ('-' :: ys) = true := by
  cases ys with
  | nil => rfl
  | cons y r =>
    have h1 : isLow '-' = false := by decide
    have h2 : isNum '-' = false := by decide
    simp [noMix, h1, h2, h]

theorem noMix_word_sep : ∀ (xs ys : List Char),
    (∀ c ∈ xs, isLow c = true) ∨ (∀ c ∈ xs, isNum c = true) → noMix ys = true →
    noMix (xs ++ '-' :: ys) = true
  | [], ys, _, h => noMix_hyphen ys h
  | [x], ys, _, h => by
    have h1 : isLow '-' = false := by decide
    have h2 : isNum '-' = false := by decide
    simp [noMix, h1, h2, noMix_hyphen ys h]
  | x :: y :: xs, ys, hw, h => by
    have ih := noMix_word_sep (y :: xs) ys
      (hw.imp (fun g c hc => g c (List.mem_cons_of_mem _ hc))
        (fun g c hc => g c (List.mem_cons_of_mem _ hc))) h
    have hx : (isLow x && isNum y) = false ∧ (isNum x && isLow y) = false := by
      rcases hw with g | g
      · have gx := g x (by simp)
        have gy := g y (by simp)
        simp [gx, gy, isLow_not_isNum]
      · have gx := g x (by simp)
        have gy := g y (by simp)
        simp [gx, gy, isNum_not_isLow]
    simp only [List.cons_append] at ih ⊢
    simp [noMix, hx.1, hx.2, ih]

theorem noMix_word : ∀ (xs : List Char),
    (∀ c ∈ xs, isLow c = true) ∨ (∀ c ∈ xs, isNum c = true) → noMix xs = true
  | [], _ => rfl
  | [_], _ => rfl
  | x :: y :: xs, hw => by
    have ih := noMix_word (y :: xs)
      (hw.imp (fun g c hc => g c (List.mem_cons_of_mem _ hc))
        (fun g c hc => g c (List.mem_cons_of_mem _ hc)))
    have hx : (isLow x && isNum y) = false ∧ (isNum x && isLow y) = false := by
      rcases hw with g | g
      · have gx := g x (by simp)
        have gy := g y (by simp)
        simp [gx, gy, isLow_not_isNum]
      · have gx := g x (by simp)
        have gy := g y (by simp)
        simp [gx, gy, isNum_not_isLow]
    simp [noMix, hx.1, hx.2, ih]

theorem plain_sep (xs ys : List Char) (hx : ∀ c ∈ xs, isPlain c = true)
    (hy : ∀ c ∈ ys, isPlain c = true) : ∀ c ∈ xs ++ '-' :: ys, isPlain c = true := by
  intro c hc
  simp only [List.mem_append, List.mem_cons] at hc
  rcases hc with h | h | h
  · exact hx c h
  · rw [h]; decide
  · exact hy c h

theorem kubeName_data (o a v : String) :
    ("yatai-image-builder-" ++ o ++ "-" ++ a ++ "-" ++ v).data =
      "yatai".data ++ '-' :: ("image".data ++ '-' :: ("builder".data ++ '-' ::
        (o.data ++ '-' :: (a.data ++ '-' :: v.data)))) := by
  simp [String.data_append]

theorem kubeName_plain (o a v : String) (ho : isWord o = true) (ha : isWord a = true)
    (hv : isWord v = true) :
    ReplaceAll (ToKebab ("yatai-image-builder-" ++ o ++ "-" ++ a ++ "-" ++ v)) '.' '-' =
      "yatai-image-builder-" ++ o ++ "-" ++ a ++ "-" ++ v := by
  have wo := isWord_cases o ho
  have wa := isWord_cases a ha
  have wv := isWord_cases v hv
  have wl : ∀ s : String, s.data.all isLow = true →
      (∀ c ∈ s.data, isLow c = true) ∨ (∀ c ∈ s.data, isNum c = true) :=
    fun s h => Or.inl (by simpa using h)
  have w1 := wl "yatai" (by decide)
  have w2 := wl "image" (by decide)
  have w3 := wl "builder" (by decide)
  have hp : ∀ c ∈ ("yatai-image-builder-" ++ o ++ "-" ++ a ++ "-" ++ v).data,
      isPlain c = true := by
    rw [kubeName_data]
    exact plain_sep _ _ (word_isPlain _ w1) (plain_sep _ _ (word_isPlain _ w2)
      (plain_sep _ _ (word_isPlain _ w3) (plain_sep _ _ (word_isPlain _ wo)
        (plain_sep _ _ (word_isPlain _ wa) (word_isPlain _ wv)))))
  have hm : noMix ("yatai-image-builder-" ++ o ++ "-" ++ a ++ "-" ++ v).data = true := by
    rw [kubeName_data]
    exact noMix_word_sep _ _ w1 (noMix_word_sep _ _ w2 (noMix_word_sep _ _ w3
      (noMix_word_sep _ _ wo (noMix_word_sep _ _ wa (noMix_word _ wv)))))
  rw [ToKebab_plain _ hp hm]
  apply String.ext
  simp only [ReplaceAll]
  conv_rhs => rw [← List.map_id ("yatai-image-builder-" ++ o ++ "-" ++ a ++ "-" ++ v).data]
  apply List.map_congr_left
  intro c hc
  have hc' := hp c hc
  have : c ≠ '.' := by
    rintro rfl
    exact absurd hc' (by decide)
  simp [this]

theorem kubeName_inj (o₁ a₁ v₁ o₂ a₂ v₂ : String)
    (h₁ : isWord o₁ = true) (h₂ : isWord a₁ = true) (h₃ : isWord o₂ = true)
    (h₄ : isWord a₂ = true)
    (h : "yatai-image-builder-" ++ o₁ ++ "-" ++ a₁ ++ "-" ++ v₁ =
      "yatai-image-builder-" ++ o₂ ++ "-" ++ a₂ ++ "-" ++ v₂) :
    o₁ = o₂ ∧ a₁ = a₂ ∧ v₁ = v₂ := by
  have hd := congrArg String.data h
  simp only [String.data_append, List.append_assoc] at hd
  have hd := List.append_cancel_left hd
  have e1 := append_cons_inj '-' o₁.data o₂.data _ _
    (word_no_hyphen _ (isWord_cases _ h₁)) (word_no_hyphen _ (isWord_cases _ h₃)) hd
  have e2 := append_cons_inj '-' a₁.data a₂.data _ _
    (word_no_hyphen _ (isWord_cases _ h₂)) (word_no_hyphen _ (isWord_cases _ h₄)) e1.2
  have e3 : v₁.data = v₂.data := e2.2
  exact ⟨String.ext e1.1, String.ext e2.1, String.ext e3⟩

theorem kebabChar_not_isCap (c : Char) (h : isPlain c = true ∨ c = '.') :
    isCap c = false := by
  rcases h with h | h
  · exact isPlain_not_isCap c h
  · subst h; rfl

theorem kebabChar_not_isSpace (c : Char) (h : isPlain c = true ∨ c = '.') :
    isSpace c = false := by
  rcases h with h | h
  · exact isPlain_not_isSpace c h
  · subst h; rfl

theorem kebabChar_separator (c : Char) (h : isPlain c = true ∨ c = '.') :
    (if isSeparator c = true then '-' else c) = dotToHyphen c := by
  by_cases hs : isSeparator c = true
  · have hc : c = ' ' ∨ c = '_' ∨ c = '-' ∨ c = '.' := by
      simpa [isSeparator, or_assoc] using hs
    rw [if_pos hs]
    rcases hc with e | e | e | e
    · subst e
      rcases h with h | h
      · exact absurd h (by decide)
      · exact absurd h (by decide)
    · subst e
      rcases h with h | h
      · exact absurd h (by decide)
      · exact absurd h (by decide)
    · subst e; rfl
    · subst e; rfl
  · rw [if_neg hs]
    have : c ≠ '.' := by
      rintro rfl
      exact hs (by decide)
    simp [dotToHyphen, this]

theorem delimitedLoop_dotted : ∀ (cs : List Char) (prev : Option Char),
    (∀ c ∈ cs, isPlain c = true ∨ c = '.') → noMix cs = true →
    delimitedLoop '-' [] false prev cs = cs.map dotToHyphen
  | [], _, _, _ => by simp [delimitedLoop]
  | [v], _, h, _ => by
    have hv := h v (by simp)
    have hp := kebabChar_separator v hv
    simp only [delimitedLoop, kebabChar_not_isCap v hv, Bool.and_false, Bool.false_and,
      Bool.not_false, Bool.and_true, Bool.false_eq_true, if_false]
    simpa using hp
  | v :: n :: r, prev, h, hm => by
    have hv := h v (by simp)
    have hn := h n (by simp)
    have ih := delimitedLoop_dotted (n :: r) (some v)
      (fun c hc => h c (List.mem_cons_of_mem _ hc))
      (by simp only [noMix, Bool.and_eq_true] at hm; exact hm.2)
    have hp := kebabChar_separator v hv
    simp only [noMix, Bool.and_eq_true, Bool.not_eq_true', Bool.and_eq_false_imp] at hm
    have hm1 : (isLow v && isNum n) = false := by
      cases hl : isLow v
      · rfl
      · simpa using hm.1.1 hl
    have hm2 : (isNum v && isLow n) = false := by
      cases hl : isNum v
      · rfl
      · simpa using hm.1.2 hl
    rw [delimitedLoop.eq_def]
    simp only [kebabChar_not_isCap v hv, kebabChar_not_isCap n hn, Bool.and_false,
      Bool.false_and, Bool.not_false, Bool.and_true, Bool.false_eq_true, if_false,
      Bool.false_or, Bool.or_false, hm1, hm2, ih]
    simpa using hp

theorem dropWhile_isSpace_none : ∀ (cs : List Char), (∀ c ∈ cs, isSpace c = false) →
    cs.dropWhile isSpace = cs
  | [], _ => rfl
  | c :: cs, h => by
    simp [List.dropWhile, h c (by simp)]

theorem trimSpace_none (cs : List Char) (h : ∀ c ∈ cs, isSpace c = false) :
    trimSpace cs = cs := by
  unfold trimSpace
  rw [dropWhile_isSpace_none cs h,
    dropWhile_isSpace_none cs.reverse (fun c hc => h c (List.mem_reverse.mp hc)),
    List.reverse_reverse]

theorem dotToHyphen_not_dot (c : Char) : dotToHyphen c ≠ '.' := by
  unfold dotToHyphen
  split
  · decide
  · assumption

/-- On a string of lower-case letters, digits, hyphens and dots in which no
letter stands next to a digit, kebab-casing followed by the replacement of
the dots only turns every dot into a hyphen. -/
theorem kebab_dotted (s : String) (h : ∀ c ∈ s.data, isPlain c = true ∨ c = '.')
    (hm : noMix s.data = true) :
    (ReplaceAll (ToKebab s) '.' '-').data = s.data.map dotToHyphen := by
  have hk : (ToKebab s).data = s.data.map dotToHyphen := by
    show delimitedLoop '-' [] false none (trimSpace s.data) = s.data.map dotToHyphen
    rw [trimSpace_none _ (fun c hc => kebabChar_not_isSpace c (h c hc)),
      delimitedLoop_dotted _ _ h hm]
  simp only [ReplaceAll, hk, List.map_map]
  apply List.map_congr_left
  intro c _
  simp [dotToHyphen_not_dot]

theorem kebabChar_sep (xs ys : List Char) (hx : ∀ c ∈ xs, isPlain c = true ∨ c = '.')
    (hy : ∀ c ∈ ys, isPlain c = true ∨ c = '.') :
    ∀ c ∈ xs ++ '-' :: ys, isPlain c = true ∨ c = '.' := by
  intro c hc
  simp only [List.mem_append, List.mem_cons] at hc
  rcases hc with h | h | h
  · exact hx c h
  · left; rw [h]; decide
  · exact hy c h

theorem isDotted_cases (s : String) (h : isDotted s = true) :
    (∀ c ∈ s.data, isLow c = true ∨ isNum c = true ∨ c = '.') ∧ noMix s.data = true := by
  simp only [isDotted, Bool.and_eq_true, List.all_eq_true] at h
  refine ⟨fun c hc => ?_, h.2⟩
  simpa [isDottedChar, or_assoc] using h.1 c hc

theorem map_dotToHyphen_no_dot : ∀ (xs : List Char), '.' ∉ xs →
    xs.map dotToHyphen = xs
  | [], _ => rfl
  | x :: xs, h => by
    have hx : x ≠ '.' := fun e => h (by simp [e])
    have ih := map_dotToHyphen_no_dot xs (fun m => h (List.mem_cons_of_mem _ m))
    simp [dotToHyphen, hx, ih]

theorem map_dotToHyphen_inj : ∀ (xs ys : List Char), '-' ∉ xs → '-' ∉ ys →
    xs.map dotToHyphen = ys.map dotToHyphen → xs = ys
  | [], [], _, _, _ => rfl
  | [], _ :: _, _, _, h => by simp at h
  | _ :: _, [], _, _, h => by simp at h
  | x :: xs, y :: ys, hx, hy, h => by
    simp only [List.map_cons, List.cons.injEq] at h
    have ih := map_dotToHyphen_inj xs ys (fun m => hx (List.mem_cons_of_mem _ m))
      (fun m => hy (List.mem_cons_of_mem _ m)) h.2
    have hx' : x ≠ '-' := fun e => hx (by simp [e])
    have hy' : y ≠ '-' := fun e => hy (by simp [e])
    have hxy : x = y := by
      have h1 := h.1
      unfold dotToHyphen at h1
      split at h1 <;> split at h1
      · simp_all
      · exact absurd h1.symm hy'
      · exact absurd h1 hx'
      · exact h1
    rw [hxy, ih]

theorem word_no_dot (xs : List Char)
    (h : (∀ c ∈ xs, isLow c = true) ∨ (∀ c ∈ xs, isNum c = true)) : '.' ∉ xs := by
  intro hc
  rcases h with h | h
  · exact absurd (h _ hc) (by decide)
  · exact absurd (h _ hc) (by decide)

theorem dotted_no_hyphen (xs : List Char)
    (h : ∀ c ∈ xs, isLow c = true ∨ isNum c = true ∨ c = '.') : '-' ∉ xs := by
  intro hc
  rcases h _ hc with h | h | h
  · exact absurd h (by decide)
  · exact absurd h (by decide)
  · exact absurd h (by decide)

/-- The build-job name of a triple whose names are words and whose version is
dotted: the concatenation with the dots of the version turned into
hyphens. -/
theorem kubeName_dotted (o a v : String) (ho : isWord o = true) (ha : isWord a = true)
    (hv : isDotted v = true) :
    (ReplaceAll (ToKebab ("yatai-image-builder-" ++ o ++ "-" ++ a ++ "-" ++ v)) '.' '-').data =
      "yatai-image-builder-".data ++
        (o.data ++ '-' :: (a.data ++ '-' :: v.data.map dotToHyphen)) := by
  have wo := isWord_cases o ho
  have wa := isWord_cases a ha
  obtain ⟨cv, mv⟩ := isDotted_cases v hv
  have wl : ∀ s : String, s.data.all isLow = true →
      (∀ c ∈ s.data, isLow c = true) ∨ (∀ c ∈ s.data, isNum c = true) :=
    fun s h => Or.inl (by simpa using h)
  have w1 := wl "yatai" (by decide)
  have w2 := wl "image" (by decide)
  have w3 := wl "builder" (by decide)
  have kw : ∀ xs : List Char,
      (∀ c ∈ xs, isLow c = true) ∨ (∀ c ∈ xs, isNum c = true) →
      ∀ c ∈ xs, isPlain c = true ∨ c = '.' :=
    fun xs h c hc => Or.inl (word_isPlain xs h c hc)
  have kv : ∀ c ∈ v.data, isPlain c = true ∨ c = '.' := by
    intro c hc
    rcases cv c hc with h | h | h
    · left; simp [isPlain, h]
    · left; simp [isPlain, h]
    · right; exact h
  have hp : ∀ c ∈ ("yatai-image-builder-" ++ o ++ "-" ++ a ++ "-" ++ v).data,
      isPlain c = true ∨ c = '.' := by
    rw [kubeName_data]
    exact kebabChar_sep _ _ (kw _ w1) (kebabChar_sep _ _ (kw _ w2)
      (kebabChar_sep _ _ (kw _ w3) (kebabChar_sep _ _ (kw _ wo)
        (kebabChar_sep _ _ (kw _ wa) kv))))
  have hm : noMix ("yatai-image-builder-" ++ o ++ "-" ++ a ++ "-" ++ v).data = true := by
    rw [kubeName_data]
    exact noMix_word_sep _ _ w1 (noMix_word_sep _ _ w2 (noMix_word_sep _ _ w3
      (noMix_word_sep _ _ wo (noMix_word_sep _ _ wa mv))))
  rw [kebab_dotted _ hp hm]
  simp only [String.data_append, List.map_append, List.append_assoc]
  rw [map_dotToHyphen_no_dot o.data (word_no_dot _ wo),
    map_dotToHyphen_no_dot a.data (word_no_dot _ wa)]
  rfl

theorem kubeName_dotted_inj (o₁ a₁ v₁ o₂ a₂ v₂ : String)
    (h₁ : isWord o₁ = true) (h₂ : isWord a₁ = true) (h₃ : isDotted v₁ = true)
    (h₄ : isWord o₂ = true) (h₅ : isWord a₂ = true) (h₆ : isDotted v₂ = true)
    (h : ReplaceAll (ToKebab ("yatai-image-builder-" ++ o₁ ++ "-" ++ a₁ ++ "-" ++ v₁))
        '.' '-' =
      ReplaceAll (ToKebab ("yatai-image-builder-" ++ o₂ ++ "-" ++ a₂ ++ "-" ++ v₂))
        '.' '-') :
    o₁ = o₂ ∧ a₁ = a₂ ∧ v₁ = v₂ := by
  have hd := congrArg String.data h
  rw [kubeName_dotted _ _ _ h₁ h₂ h₃, kubeName_dotted _ _ _ h₄ h₅ h₆] at hd
  have hd := List.append_cancel_left hd
  have e1 := append_cons_inj '-' o₁.data o₂.data _ _
    (word_no_hyphen _ (isWord_cases _ h₁)) (word_no_hyphen _ (isWord_cases _ h₄)) hd
  have e2 := append_cons_inj '-' a₁.data a₂.data _ _
    (word_no_hyphen _ (isWord_cases _ h₂)) (word_no_hyphen _ (isWord_cases _ h₅)) e1.2
  have e3 := map_dotToHyphen_inj v₁.data v₂.data
    (dotted_no_hyphen _ (isDotted_cases _ h₃).1) (dotted_no_hyphen _ (isDotted_cases _ h₆).1)
    e2.2
  exact ⟨String.ext e1.1, String.ext e2.1, String.ext e3⟩

/-- C4 (as stated, refuted): two different triples with the same build-job
name, `(a-b, c, 1)` and `(a, b-c, 1)`, and two different triples with the same
object name, `(a, b, c/d)` and `(a, b/c, d)`.  The build-job names collide as
well for the versions `1.0` and `1-0`, `v1` and `v.1`, `RC` and `rc` of one
bento, for `(a, b.c, 1)` and `(a, b, c.1)`, and for `(a, b1, 0)` and
`(a, b, 1.0)`: a dot and a hyphen, a letter next to a digit, and upper case
are not told apart, in a version or in a name. -/
theorem naming_collision :
    (("a-b", "c", "1") : String × String × String) ≠ ("a", "b-c", "1") ∧
    GetImageBuilderKubeName Example.collisionEnv (Example.versionOf 1 "1") =
      Except.ok "yatai-image-builder-a-b-c-1" ∧
    GetImageBuilderKubeName Example.collisionEnv (Example.versionOf 2 "1") =
      Except.ok "yatai-image-builder-a-b-c-1" ∧
    (("a", "b", "c/d") : String × String × String) ≠ ("a", "b/c", "d") ∧
    getS3ObjectName Example.collisionEnv (Example.versionOf 3 "c/d") =
      Except.ok "bentos/a/b/c/d.tar.gz" ∧
    getS3ObjectName Example.collisionEnv (Example.versionOf 4 "d") =
      Except.ok "bentos/a/b/c/d.tar.gz" ∧
    GetImageBuilderKubeName Example.collisionEnv (Example.versionOf 3 "1.0") =
      Except.ok "yatai-image-builder-a-b-1-0" ∧
    GetImageBuilderKubeName Example.collisionEnv (Example.versionOf 3 "1-0") =
      Except.ok "yatai-image-builder-a-b-1-0" ∧
    GetImageBuilderKubeName Example.collisionEnv (Example.versionOf 3 "v1") =
      Except.ok "yatai-image-builder-a-b-v-1" ∧
    GetImageBuilderKubeName Example.collisionEnv (Example.versionOf 3 "v.1") =
      Except.ok "yatai-image-builder-a-b-v-1" ∧
    GetImageBuilderKubeName Example.collisionEnv (Example.versionOf 3 "RC") =
      Except.ok "yatai-image-builder-a-b-rc" ∧
    GetImageBuilderKubeName Example.collisionEnv (Example.versionOf 3 "rc") =
      Except.ok "yatai-image-builder-a-b-rc" ∧
    GetImageBuilderKubeName Example.collisionEnv (Example.versionOf 5 "1") =
      Except.ok "yatai-image-builder-a-b-c-1" ∧
    GetImageBuilderKubeName Example.collisionEnv (Example.versionOf 3 "c.1") =
      Except.ok "yatai-image-builder-a-b-c-1" ∧
    GetImageBuilderKubeName Example.collisionEnv (Example.versionOf 6 "0") =
      Except.ok "yatai-image-builder-a-b-1-0" := by
  refine ⟨by decide, ?_, ?_, by decide, ?_, ?_, ?_, ?_, ?_, ?_, ?_, ?_, ?_, ?_, ?_⟩ <;> rfl

/-- C4 (amended): for two different triples whose bento and organization
resolve, the object names differ when no organization or bento name contains
a slash, and the build-job names differ when the organization and bento names
are words, made only of lower-case letters or only of digits, and the
versions are dotted, made of lower-case letters, digits and dots with no
letter next to a digit, such as `1.0.0`. -/
theorem naming_injective_on_plain_names (env : Env) (bv₁ bv₂ : BentoVersion)
    (b₁ b₂ : Bento) (o₁ o₂ : Organization)
    (hb₁ : env.GetAssociatedBento bv₁ = Except.ok b₁)
    (ho₁ : env.GetAssociatedOrganization b₁ = Except.ok o₁)
    (hb₂ : env.GetAssociatedBento bv₂ = Except.ok b₂)
    (ho₂ : env.GetAssociatedOrganization b₂ = Except.ok o₂)
    (hne : (o₁.Name, b₁.Name, bv₁.Version) ≠ (o₂.Name, b₂.Name, bv₂.Version)) :
    (('/' ∉ o₁.Name.data ∧ '/' ∉ b₁.Name.data ∧ '/' ∉ o₂.Name.data ∧ '/' ∉ b₂.Name.data) →
      getS3ObjectName env bv₁ ≠ getS3ObjectName env bv₂) ∧
    ((isWord o₁.Name = true ∧ isWord b₁.Name = true ∧ isDotted bv₁.Version = true ∧
        isWord o₂.Name = true ∧ isWord b₂.Name = true ∧ isDotted bv₂.Version = true) →
      GetImageBuilderKubeName env bv₁ ≠ GetImageBuilderKubeName env bv₂) := by
  constructor
  · rintro ⟨h1, h2, h3, h4⟩ heq
    simp only [getS3ObjectName, hb₁, ho₁, hb₂, ho₂, Sprintf_objectName,
      Except.ok.injEq] at heq
    obtain ⟨e1, e2, e3⟩ := objectName_inj _ _ _ _ _ _ h1 h2 h3 h4 heq
    exact hne (by rw [e1, e2, e3])
  · rintro ⟨h1, h2, h3, h4, h5, h6⟩ heq
    simp only [GetImageBuilderKubeName, hb₁, ho₁, hb₂, ho₂, Sprintf_kubeName,
      Except.ok.injEq] at heq
    obtain ⟨e1, e2, e3⟩ := kubeName_dotted_inj _ _ _ _ _ _ h1 h2 h3 h4 h5 h6 heq
    exact hne (by rw [e1, e2, e3])

theorem naming_injective_on_plain_names_witness :
    getS3ObjectName Example.collisionEnv (Example.versionOf 1 "1") ≠
        getS3ObjectName Example.collisionEnv (Example.versionOf 3 "1") ∧
      GetImageBuilderKubeName Example.collisionEnv (Example.versionOf 3 "1.0.0") ≠
        GetImageBuilderKubeName Example.collisionEnv (Example.versionOf 3 "1.0.1") :=
  ⟨(naming_injective_on_plain_names Example.collisionEnv (Example.versionOf 1 "1")
      (Example.versionOf 3 "1") _ _ _ _ rfl rfl rfl rfl (by decide)).1 (by decide),
    (naming_injective_on_plain_names Example.collisionEnv (Example.versionOf 3 "1.0.0")
      (Example.versionOf 3 "1.0.1") _ _ _ _ rfl rfl rfl rfl (by decide)).2 (by decide)⟩

/-! ## Update: the change set and the write -/

theorem makeUpdaters_eq_nil_iff (opt : UpdateBentoVersionOption) :
    makeUpdaters opt = [] ↔ opt = UpdateBentoVersionOption.empty := by
  rcases opt with ⟨_ | b, _ | u, _ | s, _ | f, _ | r⟩ <;>
    simp [makeUpdaters, UpdateBentoVersionOption.empty]

theorem makeUpdaters_length_ne_zero (opt : UpdateBentoVersionOption)
    (h : opt ≠ UpdateBentoVersionOption.empty) : ¬ (makeUpdaters opt).length = 0 := by
  intro hl
  exact h ((makeUpdaters_eq_nil_iff opt).mp (List.length_eq_zero.mp hl))

theorem Update_empty (env : Env) (store : Store) (bentoVersion : BentoVersion) :
    Update env store bentoVersion UpdateBentoVersionOption.empty =
      { ret := some bentoVersion, err := none, bentoVersion := bentoVersion,
        store := store, trace := [] } := by
  simp [Update, Update.body, makeUpdaters, UpdateBentoVersionOption.empty, applyMirrors]

/-- C5: `Update` with a change set in which all five fields are absent returns
the record it was given, unchanged and without error, leaves the persisted
table as it was and makes no call at all: no transaction is started, nothing
is written, and neither the cluster nor the backend is addressed. -/
theorem Update_empty_noop (env : Env) (store : Store) (bentoVersion : BentoVersion) :
    (Update env store bentoVersion UpdateBentoVersionOption.empty).ret = some bentoVersion ∧
    (Update env store bentoVersion UpdateBentoVersionOption.empty).err = none ∧
    (Update env store bentoVersion UpdateBentoVersionOption.empty).bentoVersion =
      bentoVersion ∧
    (Update env store bentoVersion UpdateBentoVersionOption.empty).store = store ∧
    (Update env store bentoVersion UpdateBentoVersionOption.empty).trace = [] := by
  rw [Update_empty]
  exact ⟨rfl, rfl, rfl, rfl, rfl⟩

/-- C6: for a non-empty change set, when the transaction cannot be started or
the write fails, `Update` returns an error (and no record), the record in
memory keeps its build status, upload status, upload times and finished
reason, and the persisted table is as before; so the record in memory differs
after the call only if the transaction started and the write succeeded. -/
theorem Update_write_failure (env : Env) (store : Store) (bentoVersion : BentoVersion)
    (opt : UpdateBentoVersionOption) (hne : opt ≠ UpdateBentoVersionOption.empty) :
    ((env.startTransaction ≠ none ∨
        env.dbUpdates bentoVersion.ID (makeUpdaters opt) ≠ none) →
      (Update env store bentoVersion opt).err ≠ none ∧
      (Update env store bentoVersion opt).ret = none ∧
      (Update env store bentoVersion opt).bentoVersion = bentoVersion ∧
      (Update env store bentoVersion opt).store = store) ∧
    ((Update env store bentoVersion opt).bentoVersion ≠ bentoVersion →
      env.startTransaction = none ∧
        env.dbUpdates bentoVersion.ID (makeUpdaters opt) = none) := by
  have hl := makeUpdaters_length_ne_zero opt hne
  have key : (env.startTransaction ≠ none ∨
        env.dbUpdates bentoVersion.ID (makeUpdaters opt) ≠ none) →
      (Update env store bentoVersion opt).err ≠ none ∧
      (Update env store bentoVersion opt).ret = none ∧
      (Update env store bentoVersion opt).bentoVersion = bentoVersion ∧
      (Update env store bentoVersion opt).store = store := by
    intro h
    cases hs : env.startTransaction with
    | some e => simp [Update, Update.body, hl, hs]
    | none =>
      cases hw : env.dbUpdates bentoVersion.ID (makeUpdaters opt) with
      | some e => simp [Update, Update.body, hl, hs, hw, df]
      | none => simp [hs, hw] at h
  refine ⟨key, ?_⟩
  intro hchg
  by_contra hcon
  have : env.startTransaction ≠ none ∨
      env.dbUpdates bentoVersion.ID (makeUpdaters opt) ≠ none := by
    by_cases h1 : env.startTransaction = none
    · right; intro h2; exact hcon ⟨h1, h2⟩
    · left; exact h1
  exact hchg (key this).2.2.1

theorem Update_write_failure_witness :
    (Update { Example.env Example.org with
        dbUpdates := fun _ _ => some (Error.other "connection lost") }
      Example.store Example.version Example.uploadSuccess).err ≠ none ∧
    (Update { Example.env Example.org with
        dbUpdates := fun _ _ => some (Error.other "connection lost") }
      Example.store Example.version Example.uploadSuccess).ret = none ∧
    (Update { Example.env Example.org with
        dbUpdates := fun _ _ => some (Error.other "connection lost") }
      Example.store Example.version Example.uploadSuccess).bentoVersion = Example.version ∧
    (Update { Example.env Example.org with
        dbUpdates := fun _ _ => some (Error.other "connection lost") }
      Example.store Example.version Example.uploadSuccess).store = Example.store :=
  (Update_write_failure _ Example.store Example.version Example.uploadSuccess
    (by decide)).1 (Or.inr (by simp))

/-! ## Update: provisioning -/

theorem provision_shape (env : Env) (tx : Store) (t : List Event)
    (bentoVersion : BentoVersion) :
    (Update.provision env tx t bentoVersion).deferDf = true ∧
    (Update.provision env tx t bentoVersion).tx = tx ∧
    ((Update.provision env tx t bentoVersion).ret = none →
      (Update.provision env tx t bentoVersion).err = none ∧
      (Update.provision env tx t bentoVersion).ptr = true) ∧
    ((Update.provision env tx t bentoVersion).err ≠ none →
      (Update.provision env tx t bentoVersion).ret ≠ none) ∧
    ((Update.provision env tx t bentoVersion).ptr = false →
      (Update.provision env tx t bentoVersion).ret ≠ none) := by
  unfold Update.provision
  simp only []
  repeat' split
  all_goals simp_all

theorem Store.updates_nil (st : Store) (id : Nat) : st.updates id [] = st := by
  funext i
  simp only [Store.updates, List.foldl_nil]
  split
  · cases st i <;> rfl
  · rfl

theorem applyMirrors_status (bv : BentoVersion) (opt : UpdateBentoVersionOption) :
    (applyMirrors bv opt).BuildStatus = opt.BuildStatus.getD bv.BuildStatus ∧
    (applyMirrors bv opt).UploadStatus = opt.UploadStatus.getD bv.UploadStatus := by
  rcases opt with ⟨_ | b, _ | u, _ | s, _ | f, _ | r⟩ <;> simp [applyMirrors]

theorem updaters_row_status (row : Row) (opt : UpdateBentoVersionOption) :
    ((makeUpdaters opt).foldl (fun r kv => r.set kv.1 kv.2) row).build_status =
        opt.BuildStatus.getD row.build_status ∧
    ((makeUpdaters opt).foldl (fun r kv => r.set kv.1 kv.2) row).upload_status =
        opt.UploadStatus.getD row.upload_status := by
  rcases opt with ⟨_ | b, _ | u, _ | s, _ | f, _ | r⟩ <;> simp [makeUpdaters, Row.set]

theorem Update_success_state (env : Env) (store : Store) (bentoVersion : BentoVersion)
    (opt : UpdateBentoVersionOption)
    (hok : (Update env store bentoVersion opt).err = none) :
    (Update env store bentoVersion opt).bentoVersion = applyMirrors bentoVersion opt ∧
    (Update env store bentoVersion opt).ret = some (applyMirrors bentoVersion opt) ∧
    (Update env store bentoVersion opt).store =
      store.updates bentoVersion.ID (makeUpdaters opt) := by
  by_cases he : opt = UpdateBentoVersionOption.empty
  · subst he
    rw [Update_empty]
    simp [applyMirrors, makeUpdaters, UpdateBentoVersionOption.empty, Store.updates_nil]
  · have hl := makeUpdaters_length_ne_zero opt he
    cases hs : env.startTransaction with
    | some e => simp [Update, Update.body, hl, hs] at hok
    | none =>
      cases hw : env.dbUpdates bentoVersion.ID (makeUpdaters opt) with
      | some e => simp [Update, Update.body, hl, hs, hw] at hok
      | none =>
        by_cases hu : opt.UploadStatus = some BentoVersionUploadStatus.Success
        · have hp := provision_shape env (store.updates bentoVersion.ID (makeUpdaters opt))
            [Event.startTransaction, Event.dbUpdates bentoVersion.ID (makeUpdaters opt)]
            bentoVersion
          simp only [Update, Update.body, hl, hs, hw, hu, if_false, ne_eq, not_true_eq_false,
            List.cons_append, List.nil_append] at hok ⊢
          obtain ⟨h1, h2, h3, -, -⟩ := hp
          obtain ⟨h4, h5⟩ := h3 hok
          simp [h1, h2, h4, h5, df]
        · simp [Update, Update.body, hl, hs, hw, hu, df]

/-- C7 (as stated, refuted): a version whose build and upload statuses are both
success is moved back to pending on both, in memory and in the table, by an
`Update` that asks for it; the call ends without error. -/
theorem Update_applies_illegal_transition :
    Example.finished.BuildStatus = BentoVersionBuildStatus.Success ∧
    Example.finished.UploadStatus = BentoVersionUploadStatus.Success ∧
    (Update (Example.env Example.org) Example.finishedStore Example.finished
      Example.backToPending).err = none ∧
    (Update (Example.env Example.org) Example.finishedStore Example.finished
      Example.backToPending).bentoVersion.BuildStatus = BentoVersionBuildStatus.Pending ∧
    (Update (Example.env Example.org) Example.finishedStore Example.finished
      Example.backToPending).bentoVersion.UploadStatus = BentoVersionUploadStatus.Pending ∧
    (Update (Example.env Example.org) Example.finishedStore Example.finished
      Example.backToPending).store 7 = some
        { build_status := BentoVersionBuildStatus.Pending,
          upload_status := BentoVersionUploadStatus.Pending,
          upload_started_at := none, upload_finished_at := none,
          upload_finished_reason := "" } := by
  refine ⟨rfl, rfl, ?_, ?_, ?_, ?_⟩ <;> decide

/-- C7 (amended): `Update` checks no transition.  Whenever it ends without
error, the build status and the upload status of the record in memory, and of
the persisted row of the version, are the supplied values where the change
set supplies one, whatever the status was before, and are unchanged where it
supplies none. -/
theorem Update_sets_supplied_status (env : Env) (store : Store)
    (bentoVersion : BentoVersion) (opt : UpdateBentoVersionOption)
    (hok : (Update env store bentoVersion opt).err = none) :
    (Update env store bentoVersion opt).bentoVersion.BuildStatus =
      opt.BuildStatus.getD bentoVersion.BuildStatus ∧
    (Update env store bentoVersion opt).bentoVersion.UploadStatus =
      opt.UploadStatus.getD bentoVersion.UploadStatus ∧
    (∀ row, store bentoVersion.ID = some row →
      ∃ row', (Update env store bentoVersion opt).store bentoVersion.ID = some row' ∧
        row'.build_status = opt.BuildStatus.getD row.build_status ∧
        row'.upload_status = opt.UploadStatus.getD row.upload_status) := by
  obtain ⟨h1, -, h3⟩ := Update_success_state env store bentoVersion opt hok
  rw [h1, h3]
  refine ⟨(applyMirrors_status _ _).1, (applyMirrors_status _ _).2, ?_⟩
  intro row hrow
  refine ⟨_, ?_, (updaters_row_status row opt).1, (updaters_row_status row opt).2⟩
  simp [Store.updates, hrow]

theorem Update_sets_supplied_status_witness :
    (Update (Example.env Example.org) Example.finishedStore Example.finished
      Example.backToPending).bentoVersion.BuildStatus =
        (some BentoVersionBuildStatus.Pending).getD BentoVersionBuildStatus.Success :=
  (Update_sets_supplied_status (Example.env Example.org) Example.finishedStore
    Example.finished Example.backToPending (by decide)).1


theorem provision_trace (env : Env) (tx : Store) (t : List Event)
    (bentoVersion : BentoVersion) :
    ∃ s, (Update.provision env tx t bentoVersion).trace =
        t ++ Event.getAssociatedBento :: s ∧
      (s.map Event.kind).Pairwise (· < ·) ∧
      (∀ k ∈ s.map Event.kind, 2 < k ∧ k < 13) ∧
      ((Update.provision env tx t bentoVersion).ptr = false →
        ∀ k ∈ s.map Event.kind, k < 12) := by
  unfold Update.provision
  simp only []
  repeat' split
  all_goals
    simp only [List.append_assoc, List.cons_append, List.nil_append]
    refine ⟨_, rfl, ?_, ?_, ?_⟩
  all_goals simp only [List.map_cons, List.map_nil, Event.kind]
  all_goals decide

theorem df_kind (err : Option Error) (store tx : Store) :
    (df err store tx).2.kind = 13 ∨ (df err store tx).2.kind = 14 := by
  cases err <;> simp [df, Event.kind]

/-- C8: for a non-empty change set whose upload status is absent or is not
success, `Update` makes no call that resolves the cluster or addresses the
orchestration backend, and when the transaction starts and the write succeeds
it returns the record without error; when the upload status is success and
the write succeeds, provisioning is entered exactly once (its first step, the
lookup of the owning bento, is called once) and no kind of call is made
twice. -/
theorem Update_provisioning_gate (env : Env) (store : Store) (bentoVersion : BentoVersion)
    (opt : UpdateBentoVersionOption) (hne : opt ≠ UpdateBentoVersionOption.empty) :
    (opt.UploadStatus ≠ some BentoVersionUploadStatus.Success →
      (∀ e ∈ (Update env store bentoVersion opt).trace, e.isClusterCall = false) ∧
      (env.startTransaction = none →
        env.dbUpdates bentoVersion.ID (makeUpdaters opt) = none →
        (Update env store bentoVersion opt).err = none ∧
        (Update env store bentoVersion opt).ret =
          some (Update env store bentoVersion opt).bentoVersion)) ∧
    (opt.UploadStatus = some BentoVersionUploadStatus.Success →
      env.startTransaction = none →
      env.dbUpdates bentoVersion.ID (makeUpdaters opt) = none →
      (Update env store bentoVersion opt).trace.count Event.getAssociatedBento = 1 ∧
      ((Update env store bentoVersion opt).trace.map Event.kind).Nodup) := by
  have hl := makeUpdaters_length_ne_zero opt hne
  constructor
  · intro hu
    constructor
    · cases hs : env.startTransaction with
      | some e => simp [Update, Update.body, hl, hs, Event.isClusterCall]
      | none =>
        cases hw : env.dbUpdates bentoVersion.ID (makeUpdaters opt) with
        | some e => simp [Update, Update.body, hl, hs, hw, df, Event.isClusterCall]
        | none => simp [Update, Update.body, hl, hs, hw, hu, df, Event.isClusterCall]
    · intro hs hw
      simp [Update, Update.body, hl, hs, hw, hu, df]
  · intro hu hs hw
    obtain ⟨s, hs', hp, hk, -⟩ := provision_trace env
      (store.updates bentoVersion.ID (makeUpdaters opt))
      [Event.startTransaction, Event.dbUpdates bentoVersion.ID (makeUpdaters opt)]
      bentoVersion
    have hd := (provision_shape env (store.updates bentoVersion.ID (makeUpdaters opt))
      [Event.startTransaction, Event.dbUpdates bentoVersion.ID (makeUpdaters opt)]
      bentoVersion).1
    have hns : Event.getAssociatedBento ∉ s := by
      intro hm
      have := hk _ (List.mem_map_of_mem Event.kind hm)
      simp [Event.kind] at this
    simp only [Update, Update.body, hl, hs, hw, hu, if_false, ne_eq, not_true_eq_false,
      List.cons_append, List.nil_append, hd, if_true, hs']
    constructor
    · simp [List.count_cons, List.count_append, List.count_eq_zero_of_not_mem hns]
      cases (Update.provision env (store.updates bentoVersion.ID (makeUpdaters opt))
        [Event.startTransaction, Event.dbUpdates bentoVersion.ID (makeUpdaters opt)]
        bentoVersion).err <;> simp [df]
    · apply List.Pairwise.imp (R := (· < ·)) (fun h => Nat.ne_of_lt h)
      have hdk := df_kind (Update.provision env
        (store.updates bentoVersion.ID (makeUpdaters opt))
        [Event.startTransaction, Event.dbUpdates bentoVersion.ID (makeUpdaters opt)]
        bentoVersion).err store (Update.provision env
        (store.updates bentoVersion.ID (makeUpdaters opt))
        [Event.startTransaction, Event.dbUpdates bentoVersion.ID (makeUpdaters opt)]
        bentoVersion).tx
      generalize (df (Update.provision env
        (store.updates bentoVersion.ID (makeUpdaters opt))
        [Event.startTransaction, Event.dbUpdates bentoVersion.ID (makeUpdaters opt)]
        bentoVersion).err store (Update.provision env
        (store.updates bentoVersion.ID (makeUpdaters opt))
        [Event.startTransaction, Event.dbUpdates bentoVersion.ID (makeUpdaters opt)]
        bentoVersion).tx).2 = e at hdk ⊢
      have k0 : Event.kind Event.startTransaction = 0 := rfl
      have k1 : Event.kind (Event.dbUpdates bentoVersion.ID (makeUpdaters opt)) = 1 := rfl
      have k2 : Event.kind Event.getAssociatedBento = 2 := rfl
      simp only [List.map_cons, List.map_append, List.map_nil, k0, k1, k2,
        List.pairwise_cons, List.pairwise_append, List.mem_cons, List.mem_append,
        List.mem_singleton, List.Pairwise.nil, List.not_mem_nil]
      generalize Event.kind e = ke at hdk ⊢
      refine ⟨?_, ?_, ?_, hp, ?_, ?_⟩
      · rintro b (rfl | rfl | h | h | h)
        · omega
        · omega
        · have := hk b h; omega
        · omega
        · exact absurd h id
      · rintro b (rfl | h | h | h)
        · omega
        · have := hk b h; omega
        · omega
        · exact absurd h id
      · rintro b (h | h | h)
        · have := hk b h; omega
        · omega
        · exact absurd h id
      · simp
      · rintro a h b (h' | h')
        · have := hk a h
          omega
        · exact absurd h' id

theorem Update_provisioning_gate_witness :
    ((∀ e ∈ (Update (Example.env Example.org) Example.finishedStore Example.finished
          Example.backToPending).trace, e.isClusterCall = false) ∧
      (Update (Example.env Example.org) Example.finishedStore Example.finished
          Example.backToPending).err = none) ∧
    ((Update (Example.env Example.org) Example.store Example.version
        Example.uploadSuccess).trace.count Event.getAssociatedBento = 1 ∧
      ((Update (Example.env Example.org) Example.store Example.version
        Example.uploadSuccess).trace.map Event.kind).Nodup) :=
  ⟨⟨((Update_provisioning_gate (Example.env Example.org) Example.finishedStore
        Example.finished Example.backToPending (by decide)).1 (by decide)).1,
      (((Update_provisioning_gate (Example.env Example.org) Example.finishedStore
        Example.finished Example.backToPending (by decide)).1 (by decide)).2 rfl rfl).1⟩,
    (Update_provisioning_gate (Example.env Example.org) Example.store Example.version
      Example.uploadSuccess (by decide)).2 rfl rfl rfl⟩


/-! ## Update: configuration errors -/

theorem getOrCreate_ok (g c : Option Error)
    (h : g = none ∨ (IsNotFound g = true ∧ c = none)) :
    (if IsNotFound g = true then c else g) = none := by
  rcases h with h | ⟨h1, h2⟩
  · simp [h, IsNotFound]
  · simp [h1, h2]

theorem getOrSkip_ok (g : Option Error) (h : g = none ∨ IsNotFound g = true) :
    (if IsNotFound g = true then none else g) = none := by
  rcases h with h | h
  · simp [h]
  · simp [h]

theorem option_ne_empty_of_upload (opt : UpdateBentoVersionOption)
    (s : BentoVersionUploadStatus) (h : opt.UploadStatus = some s) :
    opt ≠ UpdateBentoVersionOption.empty := by
  intro he
  rw [he] at h
  simp [UpdateBentoVersionOption.empty] at h

/-- The body of provisioning when the organization has no storage
configuration and the steps before the check succeed. -/
theorem provision_no_storage (env : Env) (tx : Store) (t : List Event)
    (bentoVersion : BentoVersion) (opt : UpdateBentoVersionOption) (bento : Bento)
    (org : Organization)
    (hr : ReachesAwsCheck env bentoVersion opt bento org)
    (hs3 : ∀ aws, org.Config.bind (fun c => c.AWS) = some aws → ReachesS3Check env aws)
    (hcfg : (org.Config.bind (fun c => c.AWS)).bind (fun a => a.S3) = none) :
    (Update.provision env tx t bentoVersion).ptr = false ∧
    (Update.provision env tx t bentoVersion).err = none ∧
    ((Update.provision env tx t bentoVersion).ret =
        some (Error.errorf ("organization " ++ org.Name ++ " don't have aws config")) ∨
      (Update.provision env tx t bentoVersion).ret =
        some (Error.errorf ("origanization " ++ org.Name ++ " don't have s3 config"))) := by
  obtain ⟨-, -, hb, ho, ⟨c, hc, hk⟩, hns⟩ := hr
  have hns' := getOrCreate_ok _ _ hns
  cases haws : org.Config.bind (fun c => c.AWS) with
  | none =>
    simp only [Update.provision, hb, ho, hc, hk, hns', haws, Sprintf_noAws]
    simp
  | some aws =>
    obtain ⟨hsec, hcm⟩ := hs3 aws haws
    have hsec' := getOrCreate_ok _ _ hsec
    have hcm' := getOrSkip_ok _ hcm
    have hS3 : aws.S3 = none := by simpa [haws] using hcfg
    have hname : GetImageBuilderKubeName env bentoVersion =
        Except.ok (ReplaceAll (ToKebab (Sprintf "yatai-image-builder-%s-%s-%s"
          [org.Name, bento.Name, bentoVersion.Version])) '.' '-') := by
      simp only [GetImageBuilderKubeName, hb, ho]
    simp only [Update.provision, hb, ho, hc, hk, hns', haws, hsec', hcm', hname, hS3,
      Sprintf_noS3]
    simp

theorem provision_ptr_true (env : Env) (tx : Store) (t : List Event)
    (bentoVersion : BentoVersion)
    (h : (Update.provision env tx t bentoVersion).ptr = true) :
    ∃ bento org aws s3 imageName,
      env.GetAssociatedBento bentoVersion = Except.ok bento ∧
      env.GetAssociatedOrganization bento = Except.ok org ∧
      org.Config.bind (fun c => c.AWS) = some aws ∧
      aws.S3 = some s3 ∧
      GetImageName env bentoVersion = Except.ok imageName := by
  unfold Update.provision at h
  simp only [] at h
  repeat' split at h
  all_goals first
    | (simp at h; done)
    | exact ⟨_, _, _, _, _, ‹_›, ‹_›, ‹_›, ‹_›, ‹_›⟩

theorem isPodCreate_kind (e : Event) (h : e.kind ≠ 12) : e.isPodCreate = false := by
  cases e <;> simp_all [Event.kind, Event.isPodCreate]

theorem provision_no_pod (env : Env) (tx : Store) (t : List Event)
    (bentoVersion : BentoVersion) (bento : Bento) (org : Organization)
    (hb : env.GetAssociatedBento bentoVersion = Except.ok bento)
    (ho : env.GetAssociatedOrganization bento = Except.ok org)
    (hcfg : (org.Config.bind (fun c => c.AWS)).bind (fun a => a.S3) = none ∨
      (org.Config.bind (fun c => c.AWS)).bind (fun a => a.ECR) = none) :
    (Update.provision env tx t bentoVersion).ptr = false := by
  cases hp : (Update.provision env tx t bentoVersion).ptr with
  | false => rfl
  | true =>
    exfalso
    obtain ⟨bento', org', aws, s3, imageName, hb', ho', haws, hs3, hi⟩ :=
      provision_ptr_true env tx t bentoVersion hp
    rw [hb] at hb'
    cases hb'
    rw [ho] at ho'
    cases ho'
    rcases hcfg with h | h
    · simp [haws, hs3] at h
    · simp only [haws, Option.some_bind] at h
      simp [GetImageName, hb, ho, haws, h] at hi

/-- The body of provisioning when the organization has AWS keys and an S3
bucket but no registry, and the steps before the checks succeed. -/
theorem provision_no_registry (env : Env) (tx : Store) (t : List Event)
    (bentoVersion : BentoVersion) (opt : UpdateBentoVersionOption) (bento : Bento)
    (org : Organization) (aws : AWSConfig) (s3 : S3Config)
    (hr : ReachesAwsCheck env bentoVersion opt bento org)
    (haws : org.Config.bind (fun c => c.AWS) = some aws)
    (hs3 : ReachesS3Check env aws)
    (hS3 : aws.S3 = some s3) (hecr : aws.ECR = none) :
    (Update.provision env tx t bentoVersion).ret =
      some (Error.errorf ("organization " ++ org.Name ++ " don't have ECR config")) := by
  obtain ⟨-, -, hb, ho, ⟨c, hc, hk⟩, hns⟩ := hr
  have hns' := getOrCreate_ok _ _ hns
  obtain ⟨hsec, hcm⟩ := hs3
  have hsec' := getOrCreate_ok _ _ hsec
  have hcm' := getOrSkip_ok _ hcm
  have hname : GetImageBuilderKubeName env bentoVersion =
      Except.ok (ReplaceAll (ToKebab (Sprintf "yatai-image-builder-%s-%s-%s"
        [org.Name, bento.Name, bentoVersion.Version])) '.' '-') := by
    simp only [GetImageBuilderKubeName, hb, ho]
  have hobj : getS3ObjectName env bentoVersion =
      Except.ok (Sprintf "bentos/%s/%s/%s.tar.gz"
        [org.Name, bento.Name, bentoVersion.Version]) := by
    simp only [getS3ObjectName, hb, ho]
  have himg : GetImageName env bentoVersion = Except.error (Error.errorf
      ("organization " ++ org.Name ++ " don't have ECR config")) := by
    simp only [GetImageName, hb, ho, haws, hecr, Option.some_bind, Sprintf_noEcr]
  simp only [Update.provision, hb, ho, hc, hk, hns', haws, hsec', hcm', hname, hS3, hobj,
    himg]

/-- C10 (as stated, refuted): on a cluster without the namespace, `Update`
with upload status success for an organization without configuration returns
the configuration error after the namespace was created; for an organization
without registry, after the namespace, the secret and the config map were
created. -/
theorem Update_config_error_after_create :
    (Update (Example.env Example.orgNoConfig) Example.store Example.version
      Example.uploadSuccess).err =
        some (Error.errorf "organization acme don't have aws config") ∧
    Event.namespaceCreate "yatai-builders" ∈
      (Update (Example.env Example.orgNoConfig) Example.store Example.version
        Example.uploadSuccess).trace ∧
    (Update (Example.env Example.orgNoECR) Example.store Example.version
      Example.uploadSuccess).err =
        some (Error.errorf "organization acme don't have ECR config") ∧
    Event.namespaceCreate "yatai-builders" ∈
      (Update (Example.env Example.orgNoECR) Example.store Example.version
        Example.uploadSuccess).trace ∧
    Event.secretCreate "yatai-builders" "aws-secret"
        [("credentials", awsSecret "AK" "SK")] ∈
      (Update (Example.env Example.orgNoECR) Example.store Example.version
        Example.uploadSuccess).trace ∧
    Event.configMapCreate "yatai-builders" "docker-config"
        [("config.json", dockerCMContent)] ∈
      (Update (Example.env Example.orgNoECR) Example.store Example.version
        Example.uploadSuccess).trace := by
  refine ⟨?_, ?_, ?_, ?_, ?_, ?_⟩ <;> decide

/-- C10 (amended): when `Update` is called with upload status success for a
version whose organization lacks the S3 or the registry configuration, it
returns an error and no record, and no create request for the build pod is
issued; when the steps before the failing check succeed, the error is the
configuration error.  Nothing is said of the namespace, the secret and the
config map, which are handled before the checks. -/
theorem Update_config_error_no_pod (env : Env) (store : Store)
    (bentoVersion : BentoVersion) (opt : UpdateBentoVersionOption) (bento : Bento)
    (org : Organization)
    (hu : opt.UploadStatus = some BentoVersionUploadStatus.Success)
    (hb : env.GetAssociatedBento bentoVersion = Except.ok bento)
    (ho : env.GetAssociatedOrganization bento = Except.ok org)
    (hcfg : (org.Config.bind (fun c => c.AWS)).bind (fun a => a.S3) = none ∨
      (org.Config.bind (fun c => c.AWS)).bind (fun a => a.ECR) = none) :
    (Update env store bentoVersion opt).err ≠ none ∧
    (Update env store bentoVersion opt).ret = none ∧
    (∀ e ∈ (Update env store bentoVersion opt).trace, e.isPodCreate = false) ∧
    (ReachesAwsCheck env bentoVersion opt bento org →
      (∀ aws, org.Config.bind (fun c => c.AWS) = some aws → ReachesS3Check env aws) →
      (Update env store bentoVersion opt).err =
          some (Error.errorf ("organization " ++ org.Name ++ " don't have aws config")) ∨
        (Update env store bentoVersion opt).err =
          some (Error.errorf ("origanization " ++ org.Name ++ " don't have s3 config")) ∨
        (Update env store bentoVersion opt).err =
          some (Error.errorf ("organization " ++ org.Name ++ " don't have ECR config"))) := by
  have hl := makeUpdaters_length_ne_zero opt (option_ne_empty_of_upload opt _ hu)
  have hptr := provision_no_pod env (store.updates bentoVersion.ID (makeUpdaters opt))
    [Event.startTransaction, Event.dbUpdates bentoVersion.ID (makeUpdaters opt)]
    bentoVersion bento org hb ho hcfg
  obtain ⟨hd, -, -, -, hret⟩ := provision_shape env
    (store.updates bentoVersion.ID (makeUpdaters opt))
    [Event.startTransaction, Event.dbUpdates bentoVersion.ID (makeUpdaters opt)]
    bentoVersion
  obtain ⟨s, hs', -, -, hk⟩ := provision_trace env
    (store.updates bentoVersion.ID (makeUpdaters opt))
    [Event.startTransaction, Event.dbUpdates bentoVersion.ID (makeUpdaters opt)]
    bentoVersion
  refine ⟨?_, ?_, ?_, ?_⟩
  · cases hs : env.startTransaction with
    | some e => simp [Update, Update.body, hl, hs]
    | none =>
      cases hw : env.dbUpdates bentoVersion.ID (makeUpdaters opt) with
      | some e => simp [Update, Update.body, hl, hs, hw]
      | none =>
        simp only [Update, Update.body, hl, hs, hw, hu, if_false, ne_eq, not_true_eq_false,
          List.cons_append, List.nil_append]
        exact hret hptr
  · cases hs : env.startTransaction with
    | some e => simp [Update, Update.body, hl, hs]
    | none =>
      cases hw : env.dbUpdates bentoVersion.ID (makeUpdaters opt) with
      | some e => simp [Update, Update.body, hl, hs, hw]
      | none =>
        simp only [Update, Update.body, hl, hs, hw, hu, if_false, ne_eq, not_true_eq_false,
          List.cons_append, List.nil_append, hptr]
        simp
  · cases hs : env.startTransaction with
    | some e => simp [Update, Update.body, hl, hs, Event.isPodCreate]
    | none =>
      cases hw : env.dbUpdates bentoVersion.ID (makeUpdaters opt) with
      | some e => simp [Update, Update.body, hl, hs, hw, df, Event.isPodCreate]
      | none =>
        simp only [Update, Update.body, hl, hs, hw, hu, if_false, ne_eq, not_true_eq_false,
          List.cons_append, List.nil_append, hd, if_true, hs']
        intro e he
        simp only [List.mem_append, List.mem_cons, List.mem_singleton, List.not_mem_nil,
          or_false] at he
        rcases he with rfl | rfl | rfl | he | he
        · rfl
        · rfl
        · rfl
        · apply isPodCreate_kind
          have := hk hptr _ (List.mem_map_of_mem Event.kind he)
          omega
        · apply isPodCreate_kind
          rcases df_kind (Update.provision env
            (store.updates bentoVersion.ID (makeUpdaters opt))
            [Event.startTransaction, Event.dbUpdates bentoVersion.ID (makeUpdaters opt)]
            bentoVersion).err store (Update.provision env
            (store.updates bentoVersion.ID (makeUpdaters opt))
            [Event.startTransaction, Event.dbUpdates bentoVersion.ID (makeUpdaters opt)]
            bentoVersion).tx with h | h
          · rw [he, h]; decide
          · rw [he, h]; decide
  · intro hr hs3
    have hupd : (Update env store bentoVersion opt).err =
        (Update.provision env (store.updates bentoVersion.ID (makeUpdaters opt))
          [Event.startTransaction, Event.dbUpdates bentoVersion.ID (makeUpdaters opt)]
          bentoVersion).ret := by
      simp only [Update, Update.body, hl, hr.1, hr.2.1, hu, if_false, ne_eq,
        not_true_eq_false, List.cons_append, List.nil_append]
    rw [hupd]
    cases hS : (org.Config.bind (fun c => c.AWS)).bind (fun a => a.S3) with
    | none =>
      rcases (provision_no_storage env _ _ bentoVersion opt bento org hr hs3 hS).2.2
        with h | h
      · exact Or.inl h
      · exact Or.inr (Or.inl h)
    | some s3 =>
      have hE : (org.Config.bind (fun c => c.AWS)).bind (fun a => a.ECR) = none := by
        rcases hcfg with h | h
        · rw [h] at hS; cases hS
        · exact h
      cases haws : org.Config.bind (fun c => c.AWS) with
      | none => simp [haws] at hS
      | some aws =>
        simp only [haws, Option.some_bind] at hS hE
        exact Or.inr (Or.inr (provision_no_registry env _ _ bentoVersion opt bento org aws
          s3 hr haws (hs3 aws haws) hS hE))

theorem Update_config_error_no_pod_witness :
    (Update (Example.env Example.orgNoECR) Example.store Example.version
      Example.uploadSuccess).err ≠ none ∧
    (Update (Example.env Example.orgNoECR) Example.store Example.version
      Example.uploadSuccess).ret = none ∧
    (∀ e ∈ (Update (Example.env Example.orgNoECR) Example.store Example.version
      Example.uploadSuccess).trace, e.isPodCreate = false) ∧
    ((Update (Example.env Example.orgNoECR) Example.store Example.version
        Example.uploadSuccess).err =
          some (Error.errorf ("organization " ++ Example.orgNoECR.Name ++
            " don't have aws config")) ∨
      (Update (Example.env Example.orgNoECR) Example.store Example.version
        Example.uploadSuccess).err =
          some (Error.errorf ("origanization " ++ Example.orgNoECR.Name ++
            " don't have s3 config")) ∨
      (Update (Example.env Example.orgNoECR) Example.store Example.version
        Example.uploadSuccess).err =
          some (Error.errorf ("organization " ++ Example.orgNoECR.Name ++
            " don't have ECR config"))) :=
  ⟨(Update_config_error_no_pod (Example.env Example.orgNoECR) Example.store
      Example.version Example.uploadSuccess Example.bento Example.orgNoECR rfl rfl rfl
      (Or.inr rfl)).1,
    (Update_config_error_no_pod (Example.env Example.orgNoECR) Example.store
      Example.version Example.uploadSuccess Example.bento Example.orgNoECR rfl rfl rfl
      (Or.inr rfl)).2.1,
    (Update_config_error_no_pod (Example.env Example.orgNoECR) Example.store
      Example.version Example.uploadSuccess Example.bento Example.orgNoECR rfl rfl rfl
      (Or.inr rfl)).2.2.1,
    (Update_config_error_no_pod (Example.env Example.orgNoECR) Example.store
      Example.version Example.uploadSuccess Example.bento Example.orgNoECR rfl rfl rfl
      (Or.inr rfl)).2.2.2
      ⟨rfl, rfl, rfl, rfl, ⟨_, rfl, rfl⟩, Or.inr ⟨rfl, rfl⟩⟩
      (fun _ _ => ⟨Or.inr ⟨rfl, rfl⟩, Or.inr rfl⟩)⟩


/-! ## Update: the build pod -/

/-- The body of provisioning when every step before the creation of the pod
succeeds: the pod is submitted, as the last call and the only pod. -/
theorem provision_submits (env : Env) (tx : Store) (t : List Event)
    (bentoVersion : BentoVersion) (opt : UpdateBentoVersionOption) (bento : Bento)
    (org : Organization) (aws : AWSConfig) (s3 : S3Config) (ecr : ECRConfig)
    (hr : ReachesAwsCheck env bentoVersion opt bento org)
    (haws : org.Config.bind (fun c => c.AWS) = some aws)
    (hs3 : ReachesS3Check env aws)
    (hS3 : aws.S3 = some s3) (hecr : aws.ECR = some ecr) :
    (Update.provision env tx t bentoVersion).trace.filter Event.isPodCreate =
      t.filter Event.isPodCreate ++
        [Event.podCreate "yatai-builders"
          (builderPod
            (ReplaceAll (ToKebab ("yatai-image-builder-" ++ org.Name ++ "-" ++ bento.Name ++
              "-" ++ bentoVersion.Version)) '.' '-')
            "docker-config" "aws-secret" s3
            ("bentos/" ++ org.Name ++ "/" ++ bento.Name ++ "/" ++ bentoVersion.Version ++
              ".tar.gz")
            (ecr.RepositoryURI ++ ":yatai." ++ org.Name ++ "." ++ bento.Name ++ "." ++
              bentoVersion.Version))] := by
  obtain ⟨-, -, hb, ho, ⟨c, hc, hk⟩, hns⟩ := hr
  have hns' := getOrCreate_ok _ _ hns
  obtain ⟨hsec, hcm⟩ := hs3
  have hsec' := getOrCreate_ok _ _ hsec
  have hcm' := getOrSkip_ok _ hcm
  have hname : GetImageBuilderKubeName env bentoVersion =
      Except.ok (ReplaceAll (ToKebab ("yatai-image-builder-" ++ org.Name ++ "-" ++
        bento.Name ++ "-" ++ bentoVersion.Version)) '.' '-') := by
    simp only [GetImageBuilderKubeName, hb, ho, Sprintf_kubeName]
  have hobj : getS3ObjectName env bentoVersion =
      Except.ok ("bentos/" ++ org.Name ++ "/" ++ bento.Name ++ "/" ++
        bentoVersion.Version ++ ".tar.gz") := by
    simp only [getS3ObjectName, hb, ho, Sprintf_objectName]
  have himg : GetImageName env bentoVersion = Except.ok
      (ecr.RepositoryURI ++ ":yatai." ++ org.Name ++ "." ++ bento.Name ++ "." ++
        bentoVersion.Version) := by
    simp only [GetImageName, hb, ho, haws, hecr, Option.some_bind, Sprintf_imageName]
  simp only [Update.provision, hb, ho, hc, hk, hns', haws, hsec', hcm', hname, hS3, hobj,
    himg]
  split_ifs <;>
    simp only [List.filter_append, List.filter_cons, List.filter_nil, Event.isPodCreate,
      Bool.false_eq_true, if_false, if_true, List.append_nil]

theorem df_not_podCreate (err : Option Error) (store tx : Store) :
    (df err store tx).2.isPodCreate = false := by
  cases err <;> rfl

/-- C2: in a run of `Update` with upload status success in which every step
before the creation of the pod succeeds, exactly one pod create request is
made; the pod has restart policy Never and exactly one container, whose
arguments contain `--context=s3://` ++ bucket ++ `/` ++ object name and
`--destination=` ++ registry URI ++ `:yatai.` ++ organization ++ `.` ++ bento
++ `.` ++ version, the object name and the image name being the results of
`getS3ObjectName` and `GetImageName`; its environment has `AWS_REGION` set to
the region of the S3 configuration, and it mounts the config map
`docker-config` at `/kaniko/.docker/` and the secret `aws-secret` at
`/root/.aws/`. -/
theorem Update_submits_builder_pod (env : Env) (store : Store)
    (bentoVersion : BentoVersion) (opt : UpdateBentoVersionOption) (bento : Bento)
    (org : Organization) (aws : AWSConfig) (s3 : S3Config) (ecr : ECRConfig)
    (hu : opt.UploadStatus = some BentoVersionUploadStatus.Success)
    (hr : ReachesAwsCheck env bentoVersion opt bento org)
    (haws : org.Config.bind (fun c => c.AWS) = some aws)
    (hs3 : ReachesS3Check env aws)
    (hS3 : aws.S3 = some s3) (hecr : aws.ECR = some ecr) :
    ∃ pod c objectName imageName,
      (Update env store bentoVersion opt).trace.filter Event.isPodCreate =
        [Event.podCreate "yatai-builders" pod] ∧
      pod.Spec.RestartPolicy = RestartPolicy.Never ∧
      pod.Spec.Containers = [c] ∧
      getS3ObjectName env bentoVersion = Except.ok objectName ∧
      GetImageName env bentoVersion = Except.ok imageName ∧
      imageName = ecr.RepositoryURI ++ ":yatai." ++ org.Name ++ "." ++ bento.Name ++ "." ++
        bentoVersion.Version ∧
      "--context=s3://" ++ s3.BucketName ++ "/" ++ objectName ∈ c.Args ∧
      "--destination=" ++ imageName ∈ c.Args ∧
      EnvVar.mk "AWS_REGION" s3.Region ∈ c.Env ∧
      (∃ m ∈ c.VolumeMounts, m.MountPath = "/kaniko/.docker/" ∧
        Volume.mk m.Name (some "docker-config") none ∈ pod.Spec.Volumes) ∧
      (∃ m ∈ c.VolumeMounts, m.MountPath = "/root/.aws/" ∧
        Volume.mk m.Name none (some "aws-secret") ∈ pod.Spec.Volumes) := by
  have hl := makeUpdaters_length_ne_zero opt (option_ne_empty_of_upload opt _ hu)
  have hd := (provision_shape env (store.updates bentoVersion.ID (makeUpdaters opt))
    [Event.startTransaction, Event.dbUpdates bentoVersion.ID (makeUpdaters opt)]
    bentoVersion).1
  have hp := provision_submits env (store.updates bentoVersion.ID (makeUpdaters opt))
    [Event.startTransaction, Event.dbUpdates bentoVersion.ID (makeUpdaters opt)]
    bentoVersion opt bento org aws s3 ecr hr haws hs3 hS3 hecr
  have hb := hr.2.2.1
  have ho := hr.2.2.2.1
  refine ⟨builderPod
      (ReplaceAll (ToKebab ("yatai-image-builder-" ++ org.Name ++ "-" ++ bento.Name ++
        "-" ++ bentoVersion.Version)) '.' '-')
      "docker-config" "aws-secret" s3
      ("bentos/" ++ org.Name ++ "/" ++ bento.Name ++ "/" ++ bentoVersion.Version ++
        ".tar.gz")
      (ecr.RepositoryURI ++ ":yatai." ++ org.Name ++ "." ++ bento.Name ++ "." ++
        bentoVersion.Version), _,
    "bentos/" ++ org.Name ++ "/" ++ bento.Name ++ "/" ++ bentoVersion.Version ++ ".tar.gz",
    ecr.RepositoryURI ++ ":yatai." ++ org.Name ++ "." ++ bento.Name ++ "." ++
      bentoVersion.Version, ?_, rfl, rfl, ?_, ?_, rfl, ?_, ?_, ?_, ?_, ?_⟩
  · have h0 : Event.isPodCreate Event.startTransaction = false := rfl
    have h1 : Event.isPodCreate (Event.dbUpdates bentoVersion.ID (makeUpdaters opt)) =
        false := rfl
    simp only [Update, Update.body, hl, hr.1, hr.2.1, hu, if_false, ne_eq,
      not_true_eq_false, List.cons_append, List.nil_append, hd, if_true,
      List.filter_append, hp, List.filter_cons, List.filter_nil, df_not_podCreate,
      h0, h1, Bool.false_eq_true, List.append_nil]
  · simp only [getS3ObjectName, hb, ho, Sprintf_objectName]
  · simp only [GetImageName, hb, ho, haws, hecr, Option.some_bind, Sprintf_imageName]
  · simp [builderPod, Sprintf_context]
  · simp [builderPod, Sprintf_destination]
  · simp [builderPod]
  · exact ⟨⟨"docker-config", "/kaniko/.docker/"⟩, by simp [builderPod], rfl,
      by simp [builderPod]⟩
  · exact ⟨⟨"aws-secret", "/root/.aws/"⟩, by simp [builderPod], rfl, by simp [builderPod]⟩

theorem Update_submits_builder_pod_witness :
    ∃ pod c objectName imageName,
      (Update (Example.env Example.org) Example.store Example.version
        Example.uploadSuccess).trace.filter Event.isPodCreate =
        [Event.podCreate "yatai-builders" pod] ∧
      pod.Spec.RestartPolicy = RestartPolicy.Never ∧
      pod.Spec.Containers = [c] ∧
      getS3ObjectName (Example.env Example.org) Example.version = Except.ok objectName ∧
      GetImageName (Example.env Example.org) Example.version = Except.ok imageName ∧
      imageName = "registry.example/repo" ++ ":yatai." ++ Example.org.Name ++ "." ++
        Example.bento.Name ++ "." ++ Example.version.Version ∧
      "--context=s3://" ++ "bucket" ++ "/" ++ objectName ∈ c.Args ∧
      "--destination=" ++ imageName ∈ c.Args ∧
      EnvVar.mk "AWS_REGION" "us-east-1" ∈ c.Env ∧
      (∃ m ∈ c.VolumeMounts, m.MountPath = "/kaniko/.docker/" ∧
        Volume.mk m.Name (some "docker-config") none ∈ pod.Spec.Volumes) ∧
      (∃ m ∈ c.VolumeMounts, m.MountPath = "/root/.aws/" ∧
        Volume.mk m.Name none (some "aws-secret") ∈ pod.Spec.Volumes) :=
  Update_submits_builder_pod (Example.env Example.org) Example.store Example.version
    Example.uploadSuccess Example.bento Example.org
    { AccessKeyId := "AK", SecretAccessKey := "SK",
      ECR := some (ECRConfig.mk "registry.example/repo"),
      S3 := some (S3Config.mk "bucket" "us-east-1") }
    (S3Config.mk "bucket" "us-east-1") (ECRConfig.mk "registry.example/repo") rfl
    ⟨rfl, rfl, rfl, rfl, ⟨_, rfl, rfl⟩, Or.inr ⟨rfl, rfl⟩⟩ rfl
    ⟨Or.inr ⟨rfl, rfl⟩, Or.inr rfl⟩ rfl rfl


/-! ## GetImageName and failed lookups -/

/-- C14: `GetImageName` never reports a lookup failure.  When the lookup of the
owning bento fails, or the lookup of the owning organization fails, it returns
the empty string with a nil error; it returns an error only when both lookups
succeed and the organization has no ECR configuration. -/
theorem GetImageName_swallows_lookup_failure (env : Env) (bentoVersion : BentoVersion) :
    (∀ e, env.GetAssociatedBento bentoVersion = Except.error e →
      GetImageName env bentoVersion = Except.ok "") ∧
    (∀ bento e, env.GetAssociatedBento bentoVersion = Except.ok bento →
      env.GetAssociatedOrganization bento = Except.error e →
      GetImageName env bentoVersion = Except.ok "") ∧
    (∀ e, GetImageName env bentoVersion = Except.error e →
      ∃ bento org, env.GetAssociatedBento bentoVersion = Except.ok bento ∧
        env.GetAssociatedOrganization bento = Except.ok org ∧
        (org.Config.bind (fun c => c.AWS)).bind (fun a => a.ECR) = none ∧
        e = Error.errorf ("organization " ++ org.Name ++ " don't have ECR config")) := by
  refine ⟨?_, ?_, ?_⟩
  · intro e he
    simp only [GetImageName, he]
  · intro bento e hb ho
    simp only [GetImageName, hb, ho]
  · intro e he
    cases hb : env.GetAssociatedBento bentoVersion with
    | error e' => simp [GetImageName, hb] at he
    | ok bento =>
      cases ho : env.GetAssociatedOrganization bento with
      | error e' => simp [GetImageName, hb, ho] at he
      | ok org =>
        cases hc : (org.Config.bind (fun c => c.AWS)).bind (fun a => a.ECR) with
        | some ecr => simp [GetImageName, hb, ho, hc] at he
        | none =>
          simp only [GetImageName, hb, ho, hc, Sprintf_noEcr, Except.error.injEq] at he
          exact ⟨bento, org, rfl, ho, hc, he.symm⟩

theorem GetImageName_swallows_lookup_failure_witness :
    GetImageName Example.envNoBento Example.version = Except.ok "" ∧
    GetImageName Example.envNoOrganization Example.version = Except.ok "" ∧
    (∃ bento org, (Example.env Example.orgNoECR).GetAssociatedBento Example.version =
        Except.ok bento ∧
      (Example.env Example.orgNoECR).GetAssociatedOrganization bento = Except.ok org ∧
      (org.Config.bind (fun c => c.AWS)).bind (fun a => a.ECR) = none ∧
      Error.errorf "organization acme don't have ECR config" =
        Error.errorf ("organization " ++ org.Name ++ " don't have ECR config")) :=
  ⟨(GetImageName_swallows_lookup_failure Example.envNoBento Example.version).1 _ rfl,
    (GetImageName_swallows_lookup_failure Example.envNoOrganization Example.version).2.1
      Example.bento _ rfl rfl,
    (GetImageName_swallows_lookup_failure (Example.env Example.orgNoECR)
      Example.version).2.2 (Error.errorf "organization acme don't have ECR config")
      rfl⟩

/-! ## Update: errors of the create requests -/

/-- C12 (the code at the failing input): the config map is not found and the
request to create it is rejected; `Update` goes on, submits the build pod after
the rejected request (kind 11 is the create of the config map, 12 the create
of the pod, 13 the commit) and returns the record with a nil error. -/
theorem Update_ignores_configMap_create_error :
    Example.envConfigMapRejected.configMapCreate "yatai-builders" "docker-config"
        [("config.json", dockerCMContent)] =
      some (Error.other "configmaps is forbidden") ∧
    (Update Example.envConfigMapRejected Example.store Example.version
      Example.uploadSuccess).err = none ∧
    (Update Example.envConfigMapRejected Example.store Example.version
      Example.uploadSuccess).ret ≠ none ∧
    (Update Example.envConfigMapRejected Example.store Example.version
      Example.uploadSuccess).trace.map Event.kind =
        [0, 1, 2, 3, 4, 5, 6, 7, 8, 9, 10, 11, 12, 13] ∧
    ((Update Example.envConfigMapRejected Example.store Example.version
      Example.uploadSuccess).trace.filter Event.isPodCreate).length = 1 := by
  refine ⟨rfl, ?_, ?_, ?_, ?_⟩ <;> decide


/-- The result of `Update` past the gate on the upload status, in terms of the
body of provisioning. -/
theorem Update_of_provision (env : Env) (store : Store) (bentoVersion : BentoVersion)
    (opt : UpdateBentoVersionOption)
    (hu : opt.UploadStatus = some BentoVersionUploadStatus.Success)
    (hs : env.startTransaction = none)
    (hw : env.dbUpdates bentoVersion.ID (makeUpdaters opt) = none) (b : Body)
    (hb : Update.provision env (store.updates bentoVersion.ID (makeUpdaters opt))
      [Event.startTransaction, Event.dbUpdates bentoVersion.ID (makeUpdaters opt)]
      bentoVersion = b) :
    (Update env store bentoVersion opt).err = b.ret ∧
    (Update env store bentoVersion opt).store = (df b.err store b.tx).1 ∧
    (Update env store bentoVersion opt).trace = b.trace ++ [(df b.err store b.tx).2] ∧
    (b.err ≠ none → (Update env store bentoVersion opt).bentoVersion = bentoVersion) ∧
    (b.ptr = false → (Update env store bentoVersion opt).ret = none) ∧
    (b.ptr = true → (Update env store bentoVersion opt).ret =
      some (Update env store bentoVersion opt).bentoVersion) := by
  have hl := makeUpdaters_length_ne_zero opt (option_ne_empty_of_upload opt _ hu)
  have hd := (provision_shape env (store.updates bentoVersion.ID (makeUpdaters opt))
    [Event.startTransaction, Event.dbUpdates bentoVersion.ID (makeUpdaters opt)]
    bentoVersion).1
  rw [hb] at hd
  have key : Update env store bentoVersion opt =
      { ret := if b.ptr = true then some (match b.err with
            | none => applyMirrors bentoVersion opt
            | some _ => bentoVersion) else none
        err := b.ret
        bentoVersion := match b.err with
          | none => applyMirrors bentoVersion opt
          | some _ => bentoVersion
        store := (df b.err store b.tx).1
        trace := b.trace ++ [(df b.err store b.tx).2] } := by
    simp only [Update, Update.body, hl, hs, hw, hu, if_false, ne_eq, not_true_eq_false,
      List.cons_append, List.nil_append, hb, hd, if_true]
  rw [key]
  refine ⟨rfl, rfl, rfl, ?_, ?_, ?_⟩
  · intro h
    cases he : b.err with
    | none => exact absurd he h
    | some e => rfl
  · intro h
    simp [h]
  · intro h
    simp [h]

/-- The body of provisioning when the namespace is not found and the request
to create it is rejected. -/
theorem provision_namespace_rejected (env : Env) (tx : Store) (t : List Event)
    (bentoVersion : BentoVersion) (bento : Bento) (org : Organization) (c : Cluster)
    (e : Error)
    (hb : env.GetAssociatedBento bentoVersion = Except.ok bento)
    (ho : env.GetAssociatedOrganization bento = Except.ok org)
    (hc : env.GetMajorCluster org = Except.ok c) (hk : env.GetKubeCliSet c = none)
    (hg : IsNotFound (env.namespaceGet "yatai-builders") = true)
    (hcr : env.namespaceCreate "yatai-builders" = some e) :
    (Update.provision env tx t bentoVersion).ret = some e ∧
    (Update.provision env tx t bentoVersion).err = some e ∧
    (Update.provision env tx t bentoVersion).ptr = false := by
  simp only [Update.provision, hb, ho, hc, hk, hg, if_true, hcr]
  simp

/-- The body of provisioning when the secret is not found and the request to
create it is rejected. -/
theorem provision_secret_rejected (env : Env) (tx : Store) (t : List Event)
    (bentoVersion : BentoVersion) (opt : UpdateBentoVersionOption) (bento : Bento)
    (org : Organization) (aws : AWSConfig) (e : Error)
    (hr : ReachesAwsCheck env bentoVersion opt bento org)
    (haws : org.Config.bind (fun c => c.AWS) = some aws)
    (hg : IsNotFound (env.secretGet "yatai-builders" "aws-secret") = true)
    (hcr : env.secretCreate "yatai-builders" "aws-secret"
      [("credentials", awsSecret aws.AccessKeyId aws.SecretAccessKey)] = some e) :
    (Update.provision env tx t bentoVersion).ret = some e ∧
    (Update.provision env tx t bentoVersion).err = some e ∧
    (Update.provision env tx t bentoVersion).ptr = false := by
  obtain ⟨-, -, hb, ho, ⟨c, hc, hk⟩, hns⟩ := hr
  have hns' := getOrCreate_ok _ _ hns
  simp only [Update.provision, hb, ho, hc, hk, hns', haws, hg, if_true, hcr]
  simp

/-- The body of provisioning when every step before the creation of the pod
succeeds: the answer to the create request of the pod is returned and is the
value of `err`. -/
theorem provision_pod_result (env : Env) (tx : Store) (t : List Event)
    (bentoVersion : BentoVersion) (opt : UpdateBentoVersionOption) (bento : Bento)
    (org : Organization) (aws : AWSConfig) (s3 : S3Config) (ecr : ECRConfig)
    (hr : ReachesAwsCheck env bentoVersion opt bento org)
    (haws : org.Config.bind (fun c => c.AWS) = some aws)
    (hs3 : ReachesS3Check env aws)
    (hS3 : aws.S3 = some s3) (hecr : aws.ECR = some ecr) :
    ∃ pod, (Update.provision env tx t bentoVersion).ret =
        env.podCreate "yatai-builders" pod ∧
      (Update.provision env tx t bentoVersion).err = env.podCreate "yatai-builders" pod ∧
      (Update.provision env tx t bentoVersion).ptr = true := by
  obtain ⟨-, -, hb, ho, ⟨c, hc, hk⟩, hns⟩ := hr
  have hns' := getOrCreate_ok _ _ hns
  obtain ⟨hsec, hcm⟩ := hs3
  have hsec' := getOrCreate_ok _ _ hsec
  have hcm' := getOrSkip_ok _ hcm
  have hname : GetImageBuilderKubeName env bentoVersion =
      Except.ok (ReplaceAll (ToKebab ("yatai-image-builder-" ++ org.Name ++ "-" ++
        bento.Name ++ "-" ++ bentoVersion.Version)) '.' '-') := by
    simp only [GetImageBuilderKubeName, hb, ho, Sprintf_kubeName]
  have hobj : getS3ObjectName env bentoVersion =
      Except.ok ("bentos/" ++ org.Name ++ "/" ++ bento.Name ++ "/" ++
        bentoVersion.Version ++ ".tar.gz") := by
    simp only [getS3ObjectName, hb, ho, Sprintf_objectName]
  have himg : GetImageName env bentoVersion = Except.ok
      (ecr.RepositoryURI ++ ":yatai." ++ org.Name ++ "." ++ bento.Name ++ "." ++
        bentoVersion.Version) := by
    simp only [GetImageName, hb, ho, haws, hecr, Option.some_bind, Sprintf_imageName]
  simp only [Update.provision, hb, ho, hc, hk, hns', haws, hsec', hcm', hname, hS3, hobj,
    himg]
  exact ⟨_, rfl, rfl, trivial⟩

theorem provision_creates (env : Env) (tx : Store) (t : List Event)
    (bentoVersion : BentoVersion) :
    ∃ s, (Update.provision env tx t bentoVersion).trace =
        t ++ Event.getAssociatedBento :: s ∧
      (7 ∈ s.map Event.kind → IsNotFound (env.namespaceGet "yatai-builders") = true) ∧
      (9 ∈ s.map Event.kind →
        IsNotFound (env.secretGet "yatai-builders" "aws-secret") = true) ∧
      (11 ∈ s.map Event.kind →
        IsNotFound (env.configMapGet "yatai-builders" "docker-config") = true) := by
  unfold Update.provision
  simp only []
  repeat' split
  all_goals
    simp only [List.append_assoc, List.cons_append, List.nil_append]
    refine ⟨_, rfl, ?_, ?_, ?_⟩
  all_goals simp only [List.map_cons, List.map_nil, Event.kind]
  all_goals first
    | (intro _; assumption)
    | (intro h; exact absurd h (by decide))


/-- C11 (as stated, refuted): on a second `Update` with upload status success
for a version whose pod exists, the already-exists error of the pod create
request is returned and the write is rolled back (the row keeps the upload
status it had); and an already-exists error of the namespace create request
is returned as well, without a record. -/
theorem Update_propagates_already_exists :
    (Update Example.envSecondRun Example.store Example.version
      Example.uploadSuccess).err =
        some (Error.alreadyExists
          "pods \"yatai-image-builder-acme-resnet-1-0-0\" already exists") ∧
    (Update Example.envSecondRun Example.store Example.version
      Example.uploadSuccess).trace.getLast? = some Event.rollback ∧
    (Update Example.envSecondRun Example.store Example.version
      Example.uploadSuccess).store 7 = Example.store 7 ∧
    (Update Example.envNamespaceRace Example.store Example.version
      Example.uploadSuccess).err =
        some (Error.alreadyExists "namespaces \"yatai-builders\" already exists") ∧
    (Update Example.envNamespaceRace Example.store Example.version
      Example.uploadSuccess).ret = none := by
  refine ⟨?_, ?_, ?_, ?_, ?_⟩ <;> decide

theorem df_rollback (e : Error) (store tx : Store) :
    df (some e) store tx = (store, Event.rollback) := rfl

/-- An error left in `err` by provisioning is returned by `Update`, the write
is rolled back and the record in memory is unchanged. -/
theorem Update_provision_error (env : Env) (store : Store) (bentoVersion : BentoVersion)
    (opt : UpdateBentoVersionOption) (e : Error)
    (hu : opt.UploadStatus = some BentoVersionUploadStatus.Success)
    (hs : env.startTransaction = none)
    (hw : env.dbUpdates bentoVersion.ID (makeUpdaters opt) = none)
    (hret : (Update.provision env (store.updates bentoVersion.ID (makeUpdaters opt))
      [Event.startTransaction, Event.dbUpdates bentoVersion.ID (makeUpdaters opt)]
      bentoVersion).ret = some e)
    (herr : (Update.provision env (store.updates bentoVersion.ID (makeUpdaters opt))
      [Event.startTransaction, Event.dbUpdates bentoVersion.ID (makeUpdaters opt)]
      bentoVersion).err = some e) :
    (Update env store bentoVersion opt).err = some e ∧
    (Update env store bentoVersion opt).store = store ∧
    (Update env store bentoVersion opt).bentoVersion = bentoVersion := by
  obtain ⟨h1, h2, -, h4, -, -⟩ := Update_of_provision env store bentoVersion opt hu hs hw
    _ rfl
  refine ⟨by rw [h1, hret], ?_, h4 (by rw [herr]; simp)⟩
  rw [h2, herr, df_rollback]

/-- C11 (amended): an already-exists error of the create request of the
namespace, of the secret or of the build pod is propagated: `Update` returns
it, the write is rolled back and the record in memory is unchanged.  What
makes a repeated call pass the namespace, secret and config-map steps is the
get before the create: a resource that the get finds is not created again. -/
theorem Update_already_exists_propagated (env : Env) (store : Store)
    (bentoVersion : BentoVersion) (opt : UpdateBentoVersionOption) (bento : Bento)
    (org : Organization) (msg : String)
    (hu : opt.UploadStatus = some BentoVersionUploadStatus.Success)
    (hr : ReachesNamespace env bentoVersion opt bento org) :
    (IsNotFound (env.namespaceGet "yatai-builders") = true →
      env.namespaceCreate "yatai-builders" = some (Error.alreadyExists msg) →
      (Update env store bentoVersion opt).err = some (Error.alreadyExists msg) ∧
      (Update env store bentoVersion opt).ret = none ∧
      (Update env store bentoVersion opt).store = store ∧
      (Update env store bentoVersion opt).bentoVersion = bentoVersion) ∧
    (∀ aws, ReachesAwsCheck env bentoVersion opt bento org →
      org.Config.bind (fun c => c.AWS) = some aws →
      IsNotFound (env.secretGet "yatai-builders" "aws-secret") = true →
      env.secretCreate "yatai-builders" "aws-secret"
        [("credentials", awsSecret aws.AccessKeyId aws.SecretAccessKey)] =
          some (Error.alreadyExists msg) →
      (Update env store bentoVersion opt).err = some (Error.alreadyExists msg) ∧
      (Update env store bentoVersion opt).ret = none ∧
      (Update env store bentoVersion opt).store = store ∧
      (Update env store bentoVersion opt).bentoVersion = bentoVersion) ∧
    (∀ aws s3 ecr, ReachesAwsCheck env bentoVersion opt bento org →
      org.Config.bind (fun c => c.AWS) = some aws → ReachesS3Check env aws →
      aws.S3 = some s3 → aws.ECR = some ecr →
      (∀ pod, env.podCreate "yatai-builders" pod = some (Error.alreadyExists msg)) →
      (Update env store bentoVersion opt).err = some (Error.alreadyExists msg) ∧
      (Update env store bentoVersion opt).store = store ∧
      (Update env store bentoVersion opt).bentoVersion = bentoVersion) ∧
    (env.namespaceGet "yatai-builders" = none →
      ∀ e ∈ (Update env store bentoVersion opt).trace, e.kind ≠ 7) ∧
    (env.secretGet "yatai-builders" "aws-secret" = none →
      ∀ e ∈ (Update env store bentoVersion opt).trace, e.kind ≠ 9) ∧
    (env.configMapGet "yatai-builders" "docker-config" = none →
      ∀ e ∈ (Update env store bentoVersion opt).trace, e.kind ≠ 11) := by
  obtain ⟨hs, hw, hb, ho, c, hc, hk⟩ := hr
  obtain ⟨-, -, htr, -, hnil, -⟩ := Update_of_provision env store bentoVersion opt hu hs hw
    _ rfl
  obtain ⟨s, hs', h7, h9, h11⟩ := provision_creates env
    (store.updates bentoVersion.ID (makeUpdaters opt))
    [Event.startTransaction, Event.dbUpdates bentoVersion.ID (makeUpdaters opt)]
    bentoVersion
  have hmem : ∀ e ∈ (Update env store bentoVersion opt).trace,
      e.kind < 3 ∨ e.kind ∈ s.map Event.kind ∨ 12 < e.kind := by
    intro e he
    rw [htr, hs'] at he
    simp only [List.mem_append, List.mem_cons, List.mem_singleton, List.not_mem_nil,
      or_false] at he
    rcases he with ((rfl | rfl) | (rfl | he)) | he
    · left; decide
    · left; show 1 < 3; decide
    · left; decide
    · right; left; exact List.mem_map_of_mem Event.kind he
    · right; right
      rcases df_kind (Update.provision env
        (store.updates bentoVersion.ID (makeUpdaters opt))
        [Event.startTransaction, Event.dbUpdates bentoVersion.ID (makeUpdaters opt)]
        bentoVersion).err store (Update.provision env
        (store.updates bentoVersion.ID (makeUpdaters opt))
        [Event.startTransaction, Event.dbUpdates bentoVersion.ID (makeUpdaters opt)]
        bentoVersion).tx with h | h
      · rw [he, h]; decide
      · rw [he, h]; decide
  have hfound : ∀ (k : Nat) (g : Option Error), 2 < k → k < 13 → g = none →
      (k ∈ s.map Event.kind → IsNotFound g = true) →
      ∀ e ∈ (Update env store bentoVersion opt).trace, e.kind ≠ k := by
    intro k g hk1 hk2 hg himp e he hek
    rcases hmem e he with h | h | h
    · omega
    · rw [hek] at h
      have := himp h
      rw [hg] at this
      simp [IsNotFound] at this
    · omega
  refine ⟨?_, ?_, ?_, fun hg => hfound 7 _ (by decide) (by decide) hg h7,
    fun hg => hfound 9 _ (by decide) (by decide) hg h9,
    fun hg => hfound 11 _ (by decide) (by decide) hg h11⟩
  · intro hg hcr
    obtain ⟨p1, p2, p3⟩ := provision_namespace_rejected env
      (store.updates bentoVersion.ID (makeUpdaters opt))
      [Event.startTransaction, Event.dbUpdates bentoVersion.ID (makeUpdaters opt)]
      bentoVersion bento org c _ hb ho hc hk hg hcr
    obtain ⟨q1, q2, q3⟩ := Update_provision_error env store bentoVersion opt _ hu hs hw
      p1 p2
    exact ⟨q1, hnil p3, q2, q3⟩
  · intro aws hr' haws hg hcr
    obtain ⟨p1, p2, p3⟩ := provision_secret_rejected env
      (store.updates bentoVersion.ID (makeUpdaters opt))
      [Event.startTransaction, Event.dbUpdates bentoVersion.ID (makeUpdaters opt)]
      bentoVersion opt bento org aws _ hr' haws hg hcr
    obtain ⟨q1, q2, q3⟩ := Update_provision_error env store bentoVersion opt _ hu hs hw
      p1 p2
    exact ⟨q1, hnil p3, q2, q3⟩
  · intro aws s3 ecr hr' haws hs3 hS3 hecr hpod
    obtain ⟨pod, p1, p2, -⟩ := provision_pod_result env
      (store.updates bentoVersion.ID (makeUpdaters opt))
      [Event.startTransaction, Event.dbUpdates bentoVersion.ID (makeUpdaters opt)]
      bentoVersion opt bento org aws s3 ecr hr' haws hs3 hS3 hecr
    rw [hpod pod] at p1 p2
    exact Update_provision_error env store bentoVersion opt _ hu hs hw p1 p2

theorem Update_already_exists_propagated_witness :
    (Update Example.envNamespaceRace Example.store Example.version
      Example.uploadSuccess).err =
        some (Error.alreadyExists "namespaces \"yatai-builders\" already exists") ∧
    (Update Example.envSecretRace Example.store Example.version
      Example.uploadSuccess).err =
        some (Error.alreadyExists "secrets \"aws-secret\" already exists") ∧
    ((Update Example.envSecondRun Example.store Example.version
        Example.uploadSuccess).err =
          some (Error.alreadyExists
            "pods \"yatai-image-builder-acme-resnet-1-0-0\" already exists") ∧
      (Update Example.envSecondRun Example.store Example.version
        Example.uploadSuccess).store = Example.store ∧
      (Update Example.envSecondRun Example.store Example.version
        Example.uploadSuccess).bentoVersion = Example.version) ∧
    (∀ e ∈ (Update Example.envSecondRun Example.store Example.version
      Example.uploadSuccess).trace, e.kind ≠ 7) :=
  ⟨((Update_already_exists_propagated Example.envNamespaceRace Example.store
      Example.version Example.uploadSuccess Example.bento Example.org
      "namespaces \"yatai-builders\" already exists" rfl
      ⟨rfl, rfl, rfl, rfl, _, rfl, rfl⟩).1 rfl rfl).1,
    ((Update_already_exists_propagated Example.envSecretRace Example.store
      Example.version Example.uploadSuccess Example.bento Example.org
      "secrets \"aws-secret\" already exists" rfl
      ⟨rfl, rfl, rfl, rfl, _, rfl, rfl⟩).2.1 _
      ⟨rfl, rfl, rfl, rfl, ⟨_, rfl, rfl⟩, Or.inr ⟨rfl, rfl⟩⟩ rfl rfl rfl).1,
    (Update_already_exists_propagated Example.envSecondRun Example.store
      Example.version Example.uploadSuccess Example.bento Example.org
      "pods \"yatai-image-builder-acme-resnet-1-0-0\" already exists" rfl
      ⟨rfl, rfl, rfl, rfl, _, rfl, rfl⟩).2.2.1 _ _ _
      ⟨rfl, rfl, rfl, rfl, ⟨_, rfl, rfl⟩, Or.inl rfl⟩ rfl
      ⟨Or.inl rfl, Or.inl rfl⟩ rfl rfl (fun _ => rfl),
    (Update_already_exists_propagated Example.envSecondRun Example.store
      Example.version Example.uploadSuccess Example.bento Example.org
      "" rfl ⟨rfl, rfl, rfl, rfl, _, rfl, rfl⟩).2.2.2.1 rfl⟩


/-! ## Create -/

/-- C13 (the code at the failing input): the object-store client cannot be
constructed.  `Create` wraps the error but does not return: it goes on and
calls `MakeBucket` on the nil client, which panics, so no error is returned
to the caller; the deferred call rolls the transaction back. -/
theorem Create_continues_without_client :
    (Create (Example.env Example.org) Example.createEnvNoClient Example.store
      Example.createOption).panicked = true ∧
    (Create (Example.env Example.org) Example.createEnvNoClient Example.store
      Example.createOption).err = none ∧
    (Create (Example.env Example.org) Example.createEnvNoClient Example.store
      Example.createOption).trace.drop 4 =
        [CreateEvent.minioNew "AK" "SK", CreateEvent.makeBucket "bucket" "us-east-1",
          CreateEvent.rollback] ∧
    (Create (Example.env Example.org) Example.createEnvNoClient Example.store
      Example.createOption).store 8 = none := by
  refine ⟨?_, ?_, ?_, ?_⟩ <;> decide

theorem Create_body_failure (env : Env) (os : CreateEnv) (store : Store)
    (opt : CreateBentoVersionOption) (b : CreateBody)
    (hb : Create.body env os store opt = b) :
    (b.deferDf = false → b.err ≠ none ∧ b.panicked = false) ∧
    (b.err ≠ none → b.url = none) := by
  unfold Create.body at hb
  simp only [] at hb
  repeat' split at hb
  all_goals
    subst hb
    simp

theorem Create_body_success (env : Env) (os : CreateEnv) (store : Store)
    (opt : CreateBentoVersionOption) (b : CreateBody)
    (hb : Create.body env os store opt = b)
    (hp : b.panicked = false) (he : b.err = none) :
    b.deferDf = true ∧
    ∃ bv url bucketName objectName,
      b.bentoVersion = some bv ∧
      bv.BuildStatus = BentoVersionBuildStatus.Pending ∧
      bv.UploadStatus = BentoVersionUploadStatus.Pending ∧
      b.url = some url ∧
      b.tx = store.create bv.ID bv ∧
      getS3ObjectName env bv = Except.ok objectName ∧
      ∃ pre, b.trace =
        pre ++ [CreateEvent.presignedPutObject bucketName objectName Hour] := by
  unfold Create.body at hb
  simp only [] at hb
  repeat' split at hb
  all_goals
    subst hb
    first
      | (simp at he; done)
      | (simp at hp; done)
      | exact ⟨rfl, _, _, _, _, rfl, rfl, rfl, rfl, rfl, ‹_›, _, rfl⟩

/-- The part of the registration contract that holds on the code: whenever
`Create` returns an error or panics, the table is as before the call and no
URL is returned; and whenever it returns without error, the record returned
has both statuses pending, its row is the one added to the table, and the URL
is the answer to a presign request for the derived object name with a
validity of one hour, which is the last call before the commit. -/
theorem Create_all_or_nothing (env : Env) (os : CreateEnv) (store : Store)
    (opt : CreateBentoVersionOption) :
    ((Create env os store opt).err ≠ none →
      (Create env os store opt).store = store ∧ (Create env os store opt).url = none) ∧
    ((Create env os store opt).panicked = true → (Create env os store opt).store = store) ∧
    ((Create env os store opt).panicked = false → (Create env os store opt).err = none →
      ∃ bv url bucketName objectName pre,
        (Create env os store opt).bentoVersion = some bv ∧
        bv.BuildStatus = BentoVersionBuildStatus.Pending ∧
        bv.UploadStatus = BentoVersionUploadStatus.Pending ∧
        (Create env os store opt).url = some url ∧
        (Create env os store opt).store = store.create bv.ID bv ∧
        getS3ObjectName env bv = Except.ok objectName ∧
        (Create env os store opt).trace =
          pre ++ [CreateEvent.presignedPutObject bucketName objectName Hour,
            CreateEvent.commit]) := by
  obtain ⟨hf1, hf2⟩ := Create_body_failure env os store opt _ rfl
  have hsucc := Create_body_success env os store opt _ rfl
  unfold Create
  generalize Create.body env os store opt = b at hf1 hf2 hsucc
  rcases b with ⟨panicked, bv, url, err, deferDf, tx, trace⟩
  simp only [Create.deferred] at *
  refine ⟨?_, ?_, ?_⟩
  · intro h
    cases panicked
    · cases err with
      | none => simp at h
      | some e =>
        refine ⟨?_, ?_⟩
        · cases deferDf <;> simp [df]
        · simpa using hf2 (by simp)
    · simp at h
  · intro h
    cases deferDf <;> simp [h]
  · intro hp he
    simp only [hp, Bool.false_eq_true, if_false] at he ⊢
    obtain ⟨hd, bv', url', bucketName, objectName, h1, h2, h3, h4, h5, h6, pre, h7⟩ :=
      hsucc hp he
    refine ⟨bv', url', bucketName, objectName, pre, h1, h2, h3, h4, ?_, h6, ?_⟩
    · simp [hd, he, df, h5]
    · simp [hd, he, h7]


/-! ## Update: errors of the other provisioning requests -/

theorem mem_append_kind_le (t l : List Event) (k : Nat) (hl : ∀ ev ∈ l, ev.kind ≤ k) :
    ∀ ev ∈ t ++ l, ev ∈ t ∨ ev.kind ≤ k := by
  intro ev hev
  rcases List.mem_append.mp hev with h | h
  · exact Or.inl h
  · exact Or.inr (hl ev h)

/-- The body of provisioning when the get of the namespace fails with an
error other than not found: the error is returned and the get is the last
request. -/
theorem provision_namespaceGet_error (env : Env) (tx : Store) (t : List Event)
    (bentoVersion : BentoVersion) (opt : UpdateBentoVersionOption) (bento : Bento)
    (org : Organization) (e : Error)
    (hr : ReachesNamespace env bentoVersion opt bento org)
    (hg : env.namespaceGet "yatai-builders" = some e) (hnf : IsNotFound (some e) = false) :
    (Update.provision env tx t bentoVersion).ret = some e ∧
    (Update.provision env tx t bentoVersion).err = some e ∧
    ∀ ev ∈ (Update.provision env tx t bentoVersion).trace, ev ∈ t ∨ ev.kind ≤ 6 := by
  obtain ⟨-, -, hb, ho, c, hc, hk⟩ := hr
  simp only [Update.provision, hb, ho, hc, hk, hg, hnf, Bool.false_eq_true, if_false]
  refine ⟨trivial, trivial, ?_⟩
  simp only [List.append_assoc, List.cons_append, List.nil_append]
  exact mem_append_kind_le _ _ _ (by simp [Event.kind])

/-- The body of provisioning when the get of the secret fails with an error
other than not found: the error is returned and no request follows the get. -/
theorem provision_secretGet_error (env : Env) (tx : Store) (t : List Event)
    (bentoVersion : BentoVersion) (opt : UpdateBentoVersionOption) (bento : Bento)
    (org : Organization) (aws : AWSConfig) (e : Error)
    (hr : ReachesAwsCheck env bentoVersion opt bento org)
    (haws : org.Config.bind (fun c => c.AWS) = some aws)
    (hg : env.secretGet "yatai-builders" "aws-secret" = some e)
    (hnf : IsNotFound (some e) = false) :
    (Update.provision env tx t bentoVersion).ret = some e ∧
    (Update.provision env tx t bentoVersion).err = some e ∧
    ∀ ev ∈ (Update.provision env tx t bentoVersion).trace, ev ∈ t ∨ ev.kind ≤ 8 := by
  obtain ⟨-, -, hb, ho, ⟨c, hc, hk⟩, hns⟩ := hr
  have hns' := getOrCreate_ok _ _ hns
  simp only [Update.provision, hb, ho, hc, hk, hns', haws, hg, hnf, Bool.false_eq_true,
    if_false]
  refine ⟨trivial, trivial, ?_⟩
  split_ifs
  all_goals
    simp only [List.append_assoc, List.cons_append, List.nil_append]
    exact mem_append_kind_le _ _ _ (by simp [Event.kind])

/-- The body of provisioning when the get of the config map fails with an
error other than not found: the error is returned and no request follows the
get. -/
theorem provision_configMapGet_error (env : Env) (tx : Store) (t : List Event)
    (bentoVersion : BentoVersion) (opt : UpdateBentoVersionOption) (bento : Bento)
    (org : Organization) (aws : AWSConfig) (e : Error)
    (hr : ReachesAwsCheck env bentoVersion opt bento org)
    (haws : org.Config.bind (fun c => c.AWS) = some aws)
    (hsec : env.secretGet "yatai-builders" "aws-secret" = none ∨
      (IsNotFound (env.secretGet "yatai-builders" "aws-secret") = true ∧
        env.secretCreate "yatai-builders" "aws-secret"
          [("credentials", awsSecret aws.AccessKeyId aws.SecretAccessKey)] = none))
    (hg : env.configMapGet "yatai-builders" "docker-config" = some e)
    (hnf : IsNotFound (some e) = false) :
    (Update.provision env tx t bentoVersion).ret = some e ∧
    (Update.provision env tx t bentoVersion).err = some e ∧
    ∀ ev ∈ (Update.provision env tx t bentoVersion).trace, ev ∈ t ∨ ev.kind ≤ 10 := by
  obtain ⟨-, -, hb, ho, ⟨c, hc, hk⟩, hns⟩ := hr
  have hns' := getOrCreate_ok _ _ hns
  have hsec' := getOrCreate_ok _ _ hsec
  simp only [Update.provision, hb, ho, hc, hk, hns', haws, hsec', hg, hnf,
    Bool.false_eq_true, if_false]
  refine ⟨trivial, trivial, ?_⟩
  split_ifs
  all_goals
    simp only [List.append_assoc, List.cons_append, List.nil_append]
    exact mem_append_kind_le _ _ _ (by simp [Event.kind])

theorem provision_namespace_rejected_trace (env : Env) (tx : Store) (t : List Event)
    (bentoVersion : BentoVersion) (opt : UpdateBentoVersionOption) (bento : Bento)
    (org : Organization) (e : Error)
    (hr : ReachesNamespace env bentoVersion opt bento org)
    (hg : IsNotFound (env.namespaceGet "yatai-builders") = true)
    (hcr : env.namespaceCreate "yatai-builders" = some e) :
    ∀ ev ∈ (Update.provision env tx t bentoVersion).trace, ev ∈ t ∨ ev.kind ≤ 7 := by
  obtain ⟨-, -, hb, ho, c, hc, hk⟩ := hr
  simp only [Update.provision, hb, ho, hc, hk, hg, if_true, hcr, List.append_assoc,
    List.cons_append, List.nil_append]
  exact mem_append_kind_le _ _ _ (by simp [Event.kind])

theorem provision_secret_rejected_trace (env : Env) (tx : Store) (t : List Event)
    (bentoVersion : BentoVersion) (opt : UpdateBentoVersionOption) (bento : Bento)
    (org : Organization) (aws : AWSConfig) (e : Error)
    (hr : ReachesAwsCheck env bentoVersion opt bento org)
    (haws : org.Config.bind (fun c => c.AWS) = some aws)
    (hg : IsNotFound (env.secretGet "yatai-builders" "aws-secret") = true)
    (hcr : env.secretCreate "yatai-builders" "aws-secret"
      [("credentials", awsSecret aws.AccessKeyId aws.SecretAccessKey)] = some e) :
    ∀ ev ∈ (Update.provision env tx t bentoVersion).trace, ev ∈ t ∨ ev.kind ≤ 9 := by
  obtain ⟨-, -, hb, ho, ⟨c, hc, hk⟩, hns⟩ := hr
  have hns' := getOrCreate_ok _ _ hns
  simp only [Update.provision, hb, ho, hc, hk, hns', haws, hg, if_true, hcr]
  split_ifs
  all_goals
    simp only [List.append_assoc, List.cons_append, List.nil_append]
    exact mem_append_kind_le _ _ _ (by simp [Event.kind])

/-- An error that provisioning leaves in `err` after its request of kind `k`:
`Update` returns it without a record, and no request of a later kind is
made, the only later call being the rollback. -/
theorem Update_abort (env : Env) (store : Store) (bentoVersion : BentoVersion)
    (opt : UpdateBentoVersionOption) (e : Error) (k : Nat) (hk1 : 1 ≤ k)
    (hu : opt.UploadStatus = some BentoVersionUploadStatus.Success)
    (hs : env.startTransaction = none)
    (hw : env.dbUpdates bentoVersion.ID (makeUpdaters opt) = none)
    (hret : (Update.provision env (store.updates bentoVersion.ID (makeUpdaters opt))
      [Event.startTransaction, Event.dbUpdates bentoVersion.ID (makeUpdaters opt)]
      bentoVersion).ret = some e)
    (herr : (Update.provision env (store.updates bentoVersion.ID (makeUpdaters opt))
      [Event.startTransaction, Event.dbUpdates bentoVersion.ID (makeUpdaters opt)]
      bentoVersion).err = some e)
    (htr : ∀ ev ∈ (Update.provision env (store.updates bentoVersion.ID (makeUpdaters opt))
      [Event.startTransaction, Event.dbUpdates bentoVersion.ID (makeUpdaters opt)]
      bentoVersion).trace,
      ev ∈ [Event.startTransaction, Event.dbUpdates bentoVersion.ID (makeUpdaters opt)] ∨
        ev.kind ≤ k) :
    (Update env store bentoVersion opt).err = some e ∧
    (∀ ev ∈ (Update env store bentoVersion opt).trace,
      ev.kind ≤ k ∨ ev = Event.rollback) := by
  obtain ⟨h1, -, h3, -, -, -⟩ := Update_of_provision env store bentoVersion opt hu hs hw
    _ rfl
  refine ⟨by rw [h1, hret], ?_⟩
  intro ev hev
  rw [h3, herr, df_rollback] at hev
  rcases List.mem_append.mp hev with h | h
  · rcases htr ev h with h' | h'
    · left
      simp only [List.mem_cons, List.mem_singleton, List.not_mem_nil, or_false] at h'
      rcases h' with rfl | rfl
      · exact Nat.le_trans (Nat.zero_le 1) hk1
      · exact hk1
    · exact Or.inl h'
  · right
    simpa using h

/-- The failures of the provisioning requests that `Update` does surface: an
error of the get of the namespace, of the secret or of the config map (other
than not found), and an error of the create of the namespace or of the
secret, is returned by `Update`, and no request of a later kind is made. -/
theorem Update_step_error_aborts (env : Env) (store : Store)
    (bentoVersion : BentoVersion) (opt : UpdateBentoVersionOption) (bento : Bento)
    (org : Organization) (e : Error)
    (hu : opt.UploadStatus = some BentoVersionUploadStatus.Success)
    (hr : ReachesNamespace env bentoVersion opt bento org) :
    (env.namespaceGet "yatai-builders" = some e → IsNotFound (some e) = false →
      (Update env store bentoVersion opt).err = some e ∧
      ∀ ev ∈ (Update env store bentoVersion opt).trace,
        ev.kind ≤ 6 ∨ ev = Event.rollback) ∧
    (IsNotFound (env.namespaceGet "yatai-builders") = true →
      env.namespaceCreate "yatai-builders" = some e →
      (Update env store bentoVersion opt).err = some e ∧
      ∀ ev ∈ (Update env store bentoVersion opt).trace,
        ev.kind ≤ 7 ∨ ev = Event.rollback) ∧
    (∀ aws, ReachesAwsCheck env bentoVersion opt bento org →
      org.Config.bind (fun c => c.AWS) = some aws →
      env.secretGet "yatai-builders" "aws-secret" = some e → IsNotFound (some e) = false →
      (Update env store bentoVersion opt).err = some e ∧
      ∀ ev ∈ (Update env store bentoVersion opt).trace,
        ev.kind ≤ 8 ∨ ev = Event.rollback) ∧
    (∀ aws, ReachesAwsCheck env bentoVersion opt bento org →
      org.Config.bind (fun c => c.AWS) = some aws →
      IsNotFound (env.secretGet "yatai-builders" "aws-secret") = true →
      env.secretCreate "yatai-builders" "aws-secret"
        [("credentials", awsSecret aws.AccessKeyId aws.SecretAccessKey)] = some e →
      (Update env store bentoVersion opt).err = some e ∧
      ∀ ev ∈ (Update env store bentoVersion opt).trace,
        ev.kind ≤ 9 ∨ ev = Event.rollback) ∧
    (∀ aws, ReachesAwsCheck env bentoVersion opt bento org →
      org.Config.bind (fun c => c.AWS) = some aws →
      (env.secretGet "yatai-builders" "aws-secret" = none ∨
        (IsNotFound (env.secretGet "yatai-builders" "aws-secret") = true ∧
          env.secretCreate "yatai-builders" "aws-secret"
            [("credentials", awsSecret aws.AccessKeyId aws.SecretAccessKey)] = none)) →
      env.configMapGet "yatai-builders" "docker-config" = some e →
      IsNotFound (some e) = false →
      (Update env store bentoVersion opt).err = some e ∧
      ∀ ev ∈ (Update env store bentoVersion opt).trace,
        ev.kind ≤ 10 ∨ ev = Event.rollback) := by
  have hs := hr.1
  have hw := hr.2.1
  obtain ⟨-, -, hb, ho, c, hc, hk⟩ := id hr
  refine ⟨?_, ?_, ?_, ?_, ?_⟩
  · intro hg hnf
    obtain ⟨p1, p2, p3⟩ := provision_namespaceGet_error env
      (store.updates bentoVersion.ID (makeUpdaters opt))
      [Event.startTransaction, Event.dbUpdates bentoVersion.ID (makeUpdaters opt)]
      bentoVersion opt bento org e hr hg hnf
    exact Update_abort env store bentoVersion opt e 6 (by decide) hu hs hw p1 p2 p3
  · intro hg hcr
    obtain ⟨p1, p2, -⟩ := provision_namespace_rejected env
      (store.updates bentoVersion.ID (makeUpdaters opt))
      [Event.startTransaction, Event.dbUpdates bentoVersion.ID (makeUpdaters opt)]
      bentoVersion bento org c e hb ho hc hk hg hcr
    exact Update_abort env store bentoVersion opt e 7 (by decide) hu hs hw p1 p2
      (provision_namespace_rejected_trace env _ _ bentoVersion opt bento org e hr hg hcr)
  · intro aws hr' haws hg hnf
    obtain ⟨p1, p2, p3⟩ := provision_secretGet_error env
      (store.updates bentoVersion.ID (makeUpdaters opt))
      [Event.startTransaction, Event.dbUpdates bentoVersion.ID (makeUpdaters opt)]
      bentoVersion opt bento org aws e hr' haws hg hnf
    exact Update_abort env store bentoVersion opt e 8 (by decide) hu hs hw p1 p2 p3
  · intro aws hr' haws hg hcr
    obtain ⟨p1, p2, -⟩ := provision_secret_rejected env
      (store.updates bentoVersion.ID (makeUpdaters opt))
      [Event.startTransaction, Event.dbUpdates bentoVersion.ID (makeUpdaters opt)]
      bentoVersion opt bento org aws e hr' haws hg hcr
    exact Update_abort env store bentoVersion opt e 9 (by decide) hu hs hw p1 p2
      (provision_secret_rejected_trace env _ _ bentoVersion opt bento org aws e hr' haws
        hg hcr)
  · intro aws hr' haws hsec hg hnf
    obtain ⟨p1, p2, p3⟩ := provision_configMapGet_error env
      (store.updates bentoVersion.ID (makeUpdaters opt))
      [Event.startTransaction, Event.dbUpdates bentoVersion.ID (makeUpdaters opt)]
      bentoVersion opt bento org aws e hr' haws hsec hg hnf
    exact Update_abort env store bentoVersion opt e 10 (by decide) hu hs hw p1 p2 p3

/-! ## Update: which provisioning failures roll the write back -/

end Yatai
